import Mathlib

/-!
Verification of the ADU permit-data aggregation pipeline.

The source is a client-side dashboard whose core is seven pure aggregation
functions over an in-memory list of permit records (`processUnitsByYear`,
`processAduPercentageByYear`, `processUnitsByJurisdiction`,
`processAduJobValuePercentageByYear`,
`processAverageJobValueByStructureTypeAndYear`, `processJobValueByCounty`,
`processAverageAduJobValueByYear`, combined by `processData`).

Embedding choices:
* Each JS `reduce` into an object accumulator is modelled as a left fold over
  an association list that preserves key insertion order (`upsert`), matching
  the enumeration order of `Object.entries` for the non-index string keys used
  here; year-keyed views re-sort by numeric year anyway, so enumeration order
  is irrelevant for them.
* `Array.prototype.sort` is stable (ES2019); it is modelled by
  `List.insertionSort`, which is stable for the comparator preorders used.
* Permit values are modelled as integers (`Int`), so all arithmetic is exact;
  `Math.round(a / b)` for a positive denominator is the integer `roundDiv a b`,
  proven equal to the round-half-up value `⌊a / b + 1/2⌋` over `ℚ`.
* `YEAR.toString()` grouping keys are modelled by the `Int` year itself
  (`toString` is injective on integers), and the sort comparator
  `parseInt(a.year) - parseInt(b.year)` by integer comparison.
-/

/-- The three permit classification literals. -/
inductive Classification : Type
  | ADU
  | NON_ADU
  | POTENTIAL_ADU_CONVERSION
deriving DecidableEq, Repr

/-- One input permit record (fields the pipeline reads). -/
structure HousingData : Type where
  YEAR : Int
  COUNTY : String
  Classification : Classification
  JOB_VALUE : Int
deriving DecidableEq, Repr

/-- JS `Math.round` on an exact rational: round half up (towards `+∞`). -/
def jsRound (x : ℚ) : Int := ⌊x + 1 / 2⌋

/-- JS `Math.round(a / b)` computed in exact integer arithmetic.
For `0 < b` this equals `jsRound ((a : ℚ) / b)` (`roundDiv_eq`). -/
def roundDiv (a b : Int) : Int := (2 * a + b).fdiv (2 * b)

theorem roundDiv_eq (a : Int) {b : Int} (hb : 0 < b) :
    roundDiv a b = jsRound ((a : ℚ) / (b : ℚ)) := by
  have hb2 : (0 : Int) < 2 * b := by omega
  have hbq : ((b : ℚ)) ≠ 0 := by exact_mod_cast hb.ne'
  have h2bq : ((2 * b : Int) : ℚ) ≠ 0 := by
    push_cast
    positivity
  have hx : (a : ℚ) / (b : ℚ) + 1 / 2 = ((2 * a + b : Int) : ℚ) / ((2 * b : Int) : ℚ) := by
    push_cast
    field_simp
    ring
  have hnat : ((2 * b : Int) : ℚ) = (((2 * b).toNat : ℕ) : ℚ) := by
    exact_mod_cast (congrArg (fun z : Int => (z : ℚ)) (Int.toNat_of_nonneg hb2.le)).symm
  have hfl : ⌊((2 * a + b : Int) : ℚ) / ((2 * b : Int) : ℚ)⌋ = (2 * a + b) / (2 * b) := by
    rw [hnat, Rat.floor_intCast_div_natCast, Int.toNat_of_nonneg hb2.le]
  rw [jsRound, hx, hfl, roundDiv, Int.fdiv_eq_ediv _ hb2.le]

/-- Association-list update mirroring the JS pattern
`if (!acc[k]) acc[k] = d; mutate acc[k]` inside a `reduce`: the first entry
with key `k` is updated in place, otherwise a new entry is appended at the
end (preserving key insertion order). -/
def upsert {κ α : Type} [DecidableEq κ] (m : List (κ × α)) (k : κ) (d : α) (f : α → α) :
    List (κ × α) :=
  match m with
  | [] => [(k, f d)]
  | (k', v) :: rest => if k' = k then (k', f v) :: rest else (k', v) :: upsert rest k d f

/-- Association-list lookup (first entry with the given key). -/
def alookup {κ α : Type} [DecidableEq κ] (m : List (κ × α)) (k : κ) : Option α :=
  match m with
  | [] => none
  | (k', v) :: rest => if k' = k then some v else alookup rest k

theorem alookup_upsert_self {κ α : Type} [DecidableEq κ]
    (m : List (κ × α)) (k : κ) (d : α) (f : α → α) :
    alookup (upsert m k d f) k = some (f ((alookup m k).getD d)) := by
  induction m with
  | nil => simp [upsert, alookup]
  | cons p rest ih =>
    obtain ⟨k', v⟩ := p
    by_cases h : k' = k
    · simp [upsert, alookup, h]
    · simp [upsert, alookup, h, ih]

theorem alookup_upsert_ne {κ α : Type} [DecidableEq κ]
    (m : List (κ × α)) (k k' : κ) (d : α) (f : α → α) (hne : k' ≠ k) :
    alookup (upsert m k d f) k' = alookup m k' := by
  have hkk : k ≠ k' := Ne.symm hne
  induction m with
  | nil => simp [upsert, alookup, hkk]
  | cons p rest ih =>
    obtain ⟨k'', v⟩ := p
    by_cases h : k'' = k
    · subst h
      simp [upsert, alookup, Ne.symm hne]
    · simp only [upsert, if_neg h, alookup]
      by_cases h' : k'' = k'
      · simp [h']
      · simp [h', ih]

theorem keys_upsert {κ α : Type} [DecidableEq κ]
    (m : List (κ × α)) (k : κ) (d : α) (f : α → α) :
    (upsert m k d f).map Prod.fst =
      if k ∈ m.map Prod.fst then m.map Prod.fst else m.map Prod.fst ++ [k] := by
  induction m with
  | nil => simp [upsert]
  | cons p rest ih =>
    obtain ⟨k', v⟩ := p
    by_cases h : k' = k
    · simp [upsert, h]
    · have : ¬ k = k' := fun hh => h hh.symm
      simp only [upsert, if_neg h, List.map_cons, List.mem_cons, this, false_or, ih]
      by_cases hk : k ∈ rest.map Prod.fst
      · simp [hk]
      · simp [hk]

theorem nodup_keys_upsert {κ α : Type} [DecidableEq κ]
    (m : List (κ × α)) (k : κ) (d : α) (f : α → α)
    (h : (m.map Prod.fst).Nodup) : ((upsert m k d f).map Prod.fst).Nodup := by
  rw [keys_upsert]
  by_cases hk : k ∈ m.map Prod.fst
  · simpa [hk]
  · simp only [hk, if_false]
    exact List.Nodup.append h (List.nodup_singleton k) (by simpa using hk)

theorem alookup_eq_none_iff {κ α : Type} [DecidableEq κ] (m : List (κ × α)) (k : κ) :
    alookup m k = none ↔ k ∉ m.map Prod.fst := by
  induction m with
  | nil => simp [alookup]
  | cons p rest ih =>
    obtain ⟨k', v⟩ := p
    by_cases h : k' = k
    · simp [alookup, h]
    · have h2 : ¬ k = k' := fun hh => h hh.symm
      simp [alookup, h, ih, h2]

theorem alookup_of_mem_nodup {κ α : Type} [DecidableEq κ]
    {m : List (κ × α)} {k : κ} {v : α}
    (hnd : (m.map Prod.fst).Nodup) (hm : (k, v) ∈ m) : alookup m k = some v := by
  induction m with
  | nil => simp at hm
  | cons p rest ih =>
    obtain ⟨k', v'⟩ := p
    rcases List.mem_cons.mp hm with h | h
    · injection h with h1 h2
      subst h1
      subst h2
      simp [alookup]
    · have hk : k' ≠ k := by
        rintro rfl
        have : k' ∈ rest.map Prod.fst := List.mem_map.mpr ⟨(k', v), h, rfl⟩
        simp only [List.map_cons, List.nodup_cons] at hnd
        exact hnd.1 this
      have := ih (by simpa using (List.nodup_cons.mp (by simpa using hnd)).2) h
      simp [alookup, hk, this]

/-- The JS `rawData.reduce((acc, row) => ...)` pattern shared by all seven
views: rows satisfying `cond` update (or create, with default `d`) the entry
keyed by `key row`; other rows are skipped. -/
def gfold {R κ α : Type} [DecidableEq κ] (cond : R → Prop) [DecidablePred cond]
    (key : R → κ) (d : κ → α) (f : R → α → α) (l : List R) : List (κ × α) :=
  l.foldl (fun acc row => if cond row then upsert acc (key row) (d (key row)) (f row) else acc) []

/-- Per-key view of a single `gfold` step. -/
def gstep {R κ α : Type} [DecidableEq κ] (cond : R → Prop) [DecidablePred cond]
    (key : R → κ) (d : κ → α) (f : R → α → α) (k : κ) (v : Option α) (row : R) : Option α :=
  if cond row ∧ key row = k then some (f row (v.getD (d k))) else v

theorem alookup_foldl {R κ α : Type} [DecidableEq κ] (cond : R → Prop) [DecidablePred cond]
    (key : R → κ) (d : κ → α) (f : R → α → α) (k : κ) (l : List R) :
    ∀ acc : List (κ × α),
      alookup
        (l.foldl (fun acc row =>
          if cond row then upsert acc (key row) (d (key row)) (f row) else acc) acc) k =
        l.foldl (gstep cond key d f k) (alookup acc k) := by
  induction l with
  | nil => intro acc; rfl
  | cons row rest ih =>
    intro acc
    simp only [List.foldl_cons]
    rw [ih]
    congr 1
    by_cases hc : cond row
    · by_cases hk : key row = k
      · subst hk
        simp [gstep, hc, alookup_upsert_self]
      · simp [gstep, hc, hk, alookup_upsert_ne _ _ _ _ _ (fun h => hk h.symm)]
    · simp [gstep, hc]

theorem alookup_gfold {R κ α : Type} [DecidableEq κ] (cond : R → Prop) [DecidablePred cond]
    (key : R → κ) (d : κ → α) (f : R → α → α) (k : κ) (l : List R) :
    alookup (gfold cond key d f l) k = l.foldl (gstep cond key d f k) none :=
  alookup_foldl cond key d f k l []

theorem foldl_gstep_eq_none_iff {R κ α : Type} [DecidableEq κ] (cond : R → Prop)
    [DecidablePred cond] (key : R → κ) (d : κ → α) (f : R → α → α) (k : κ) (l : List R) :
    ∀ v : Option α,
      l.foldl (gstep cond key d f k) v = none ↔
        v = none ∧ ∀ r ∈ l, ¬(cond r ∧ key r = k) := by
  induction l with
  | nil => intro v; simp
  | cons row rest ih =>
    intro v
    simp only [List.foldl_cons, ih]
    by_cases h : cond row ∧ key row = k
    · simp [gstep, h]
    · simp only [gstep, if_neg h, List.mem_cons]
      constructor
      · rintro ⟨hv, hall⟩
        exact ⟨hv, fun r hr => by
          rcases hr with rfl | hr
          · exact h
          · exact hall r hr⟩
      · rintro ⟨hv, hall⟩
        exact ⟨hv, fun r hr => hall r (Or.inr hr)⟩

theorem nodup_keys_gfold {R κ α : Type} [DecidableEq κ] (cond : R → Prop) [DecidablePred cond]
    (key : R → κ) (d : κ → α) (f : R → α → α) (l : List R) :
    ((gfold cond key d f l).map Prod.fst).Nodup := by
  suffices h : ∀ acc : List (κ × α), (acc.map Prod.fst).Nodup →
      ((l.foldl (fun acc row =>
        if cond row then upsert acc (key row) (d (key row)) (f row) else acc) acc).map
        Prod.fst).Nodup from h [] (by simp)
  induction l with
  | nil => intro acc hacc; simpa using hacc
  | cons row rest ih =>
    intro acc hacc
    simp only [List.foldl_cons]
    apply ih
    by_cases hc : cond row
    · simpa [hc] using nodup_keys_upsert acc (key row) (d (key row)) (f row) hacc
    · simpa [hc] using hacc

theorem mem_keys_gfold {R κ α : Type} [DecidableEq κ] (cond : R → Prop) [DecidablePred cond]
    (key : R → κ) (d : κ → α) (f : R → α → α) (k : κ) (l : List R) :
    k ∈ (gfold cond key d f l).map Prod.fst ↔ ∃ r ∈ l, cond r ∧ key r = k := by
  rw [← not_iff_not, ← alookup_eq_none_iff, alookup_gfold,
    foldl_gstep_eq_none_iff]
  simp

theorem alookup_of_mem_gfold {R κ α : Type} [DecidableEq κ] (cond : R → Prop)
    [DecidablePred cond] (key : R → κ) (d : κ → α) (f : R → α → α) (l : List R)
    {p : κ × α} (hp : p ∈ gfold cond key d f l) :
    alookup (gfold cond key d f l) p.1 = some p.2 :=
  alookup_of_mem_nodup (nodup_keys_gfold cond key d f l) (by simpa using hp)

/-- Output row of `processUnitsByYear` (view 1, `CountsByYear`). -/
structure UnitsByYearData : Type where
  year : Int
  ADU : Nat
  NON_ADU : Nat
  POTENTIAL_ADU_CONVERSION : Nat
deriving DecidableEq, Repr

/-- Output row of `processAduPercentageByYear` (view 2, `PercentageByYear`). -/
structure AduPercentageByYearData : Type where
  year : Int
  aduPercentage : Int
  aduCount : Nat
  totalCount : Nat
deriving DecidableEq, Repr

/-- Output row of `processUnitsByJurisdiction` (view 3, `TopJurisdictionsByAduCount`). -/
structure UnitsByJurisdictionData : Type where
  county : String
  total : Nat
  ADU : Nat
deriving DecidableEq, Repr

/-- Output row of `processJobValueByCounty` (view 6, `TopJurisdictionsByAvgAduValue`). -/
structure JobValueByCountyData : Type where
  county : String
  avgValue : Int
  count : Nat
deriving DecidableEq, Repr

/-- Output row of `processAverageAduJobValueByYear` (view 7, `AverageAduValueByYear`). -/
structure AverageAduJobValueByYearData : Type where
  year : Int
  avgAduValue : Int
  count : Nat
deriving DecidableEq, Repr

/-- Output row of `processAduJobValuePercentageByYear` (view 4, `ValueShareByYear`). -/
structure AduJobValuePercentageByYearData : Type where
  year : Int
  aduJobValuePercentage : Int
  aduValue : Int
  totalValue : Int
deriving DecidableEq, Repr

/-- Output row of `processAverageJobValueByStructureTypeAndYear`
(view 5, `AverageValueByTypeAndYear`). -/
structure AvgJobValueByStructureTypeAndYearData : Type where
  year : Int
  ADU : Int
  NON_ADU : Int
  POTENTIAL_ADU_CONVERSION : Int
deriving DecidableEq, Repr

/-- Running sum/count pair (the source's `ValueAggregate`). -/
structure ValueAggregate : Type where
  sum : Int
  count : Nat
deriving DecidableEq, Repr

/-- The bundle of all seven views (the source's `ChartDataState`). -/
structure ChartDataState : Type where
  unitsByYear : List UnitsByYearData
  aduPercentageByYear : List AduPercentageByYearData
  unitsByJurisdiction : List UnitsByJurisdictionData
  aduJobValuePercentageByYear : List AduJobValuePercentageByYearData
  avgJobValueByStructureTypeAndYear : List AvgJobValueByStructureTypeAndYearData
  jobValueByCounty : List JobValueByCountyData
  averageAduJobValueByYear : List AverageAduJobValueByYearData
deriving DecidableEq, Repr

/-- The source's `acc[year][row.Classification]++`. -/
def incClassification (c : Classification) (u : UnitsByYearData) : UnitsByYearData :=
  match c with
  | .ADU => { u with ADU := u.ADU + 1 }
  | .NON_ADU => { u with NON_ADU := u.NON_ADU + 1 }
  | .POTENTIAL_ADU_CONVERSION =>
    { u with POTENTIAL_ADU_CONVERSION := u.POTENTIAL_ADU_CONVERSION + 1 }

/-- The `unitsMap` accumulator of view 1, grouped by year in insertion order. -/
def unitsByYearFold (rawData : List HousingData) : List (Int × UnitsByYearData) :=
  gfold (fun _ => True) (fun row => row.YEAR)
    (fun year => { year := year, ADU := 0, NON_ADU := 0, POTENTIAL_ADU_CONVERSION := 0 })
    (fun row => incClassification row.Classification) rawData

/-- View 1: counts of each classification per year, sorted ascending by year. -/
def processUnitsByYear (rawData : List HousingData) : List UnitsByYearData :=
  ((unitsByYearFold rawData).map Prod.snd).insertionSort (fun a b => a.year ≤ b.year)

/-- View 2: ADU share of each year's permits, as a rounded integer percentage. -/
def processAduPercentageByYear (rawData : List HousingData) : List AduPercentageByYearData :=
  (processUnitsByYear rawData).map fun u =>
    let total : Nat := u.ADU + u.NON_ADU + u.POTENTIAL_ADU_CONVERSION
    { year := u.year
      aduPercentage := if 0 < total then roundDiv (100 * (u.ADU : Int)) (total : Int) else 0
      aduCount := u.ADU
      totalCount := total }

/-- Per-county accumulator of view 3 (the source's `{ ADU: 0, total: 0 }`). -/
structure JurisdictionCounts : Type where
  ADU : Nat
  total : Nat
deriving DecidableEq, Repr

/-- The `jurisdictionMap` accumulator of view 3, grouped by county in
insertion order. -/
def jurisdictionFold (rawData : List HousingData) : List (String × JurisdictionCounts) :=
  gfold (fun _ => True) (fun row => row.COUNTY)
    (fun _ => ({ ADU := 0, total := 0 } : JurisdictionCounts))
    (fun row acc =>
      { ADU := if row.Classification = .ADU then acc.ADU + 1 else acc.ADU
        total := acc.total + 1 }) rawData

/-- View 3: per-county total and ADU counts, top 8 by ADU count descending. -/
def processUnitsByJurisdiction (rawData : List HousingData) : List UnitsByJurisdictionData :=
  (((jurisdictionFold rawData).map fun p =>
      ({ county := p.1, ADU := p.2.ADU, total := p.2.total } : UnitsByJurisdictionData)).insertionSort
    (fun a b => b.ADU ≤ a.ADU)).take 8

/-- Per-year accumulator of view 4 (the source's `{ aduValue: 0, totalValue: 0 }`). -/
structure YearValueShare : Type where
  aduValue : Int
  totalValue : Int
deriving DecidableEq, Repr

/-- The `groupedByYear` accumulator of view 4. -/
def yearValueShareFold (rawData : List HousingData) : List (Int × YearValueShare) :=
  gfold (fun _ => True) (fun row => row.YEAR)
    (fun _ => ({ aduValue := 0, totalValue := 0 } : YearValueShare))
    (fun row acc =>
      { totalValue := acc.totalValue + row.JOB_VALUE
        aduValue :=
          if row.Classification = .ADU then acc.aduValue + row.JOB_VALUE else acc.aduValue })
    rawData

/-- View 4: ADU share of each year's total permit value, rounded percentage. -/
def processAduJobValuePercentageByYear (rawData : List HousingData) :
    List AduJobValuePercentageByYearData :=
  (((yearValueShareFold rawData).map fun p =>
      ({ year := p.1
         aduJobValuePercentage :=
           if (0 : Int) < p.2.totalValue then roundDiv (100 * p.2.aduValue) p.2.totalValue
           else 0
         aduValue := p.2.aduValue
         totalValue := p.2.totalValue } : AduJobValuePercentageByYearData)).insertionSort
    (fun a b => a.year ≤ b.year))

/-- Per-year accumulator of view 5: one `ValueAggregate` per classification. -/
structure StructureTypeAgg : Type where
  ADU : ValueAggregate
  NON_ADU : ValueAggregate
  POTENTIAL_ADU_CONVERSION : ValueAggregate
deriving DecidableEq, Repr

/-- The source's `acc[year][row.Classification].sum += row.JOB_VALUE; ....count++`. -/
def addToClassification (c : Classification) (v : Int) (a : StructureTypeAgg) :
    StructureTypeAgg :=
  match c with
  | .ADU => { a with ADU := { sum := a.ADU.sum + v, count := a.ADU.count + 1 } }
  | .NON_ADU => { a with NON_ADU := { sum := a.NON_ADU.sum + v, count := a.NON_ADU.count + 1 } }
  | .POTENTIAL_ADU_CONVERSION =>
    { a with POTENTIAL_ADU_CONVERSION :=
        { sum := a.POTENTIAL_ADU_CONVERSION.sum + v
          count := a.POTENTIAL_ADU_CONVERSION.count + 1 } }

/-- The per-year accumulator map of view 5. -/
def structureTypeFold (rawData : List HousingData) : List (Int × StructureTypeAgg) :=
  gfold (fun _ => True) (fun row => row.YEAR)
    (fun _ =>
      ({ ADU := { sum := 0, count := 0 }
         NON_ADU := { sum := 0, count := 0 }
         POTENTIAL_ADU_CONVERSION := { sum := 0, count := 0 } } : StructureTypeAgg))
    (fun row => addToClassification row.Classification row.JOB_VALUE) rawData

/-- View 5: mean permit value per classification and year (raw monetary units). -/
def processAverageJobValueByStructureTypeAndYear (rawData : List HousingData) :
    List AvgJobValueByStructureTypeAndYearData :=
  (((structureTypeFold rawData).map fun p =>
      ({ year := p.1
         ADU := if 0 < p.2.ADU.count then roundDiv p.2.ADU.sum (p.2.ADU.count : Int) else 0
         NON_ADU :=
           if 0 < p.2.NON_ADU.count then roundDiv p.2.NON_ADU.sum (p.2.NON_ADU.count : Int) else 0
         POTENTIAL_ADU_CONVERSION :=
           if 0 < p.2.POTENTIAL_ADU_CONVERSION.count then
             roundDiv p.2.POTENTIAL_ADU_CONVERSION.sum (p.2.POTENTIAL_ADU_CONVERSION.count : Int)
           else 0 } : AvgJobValueByStructureTypeAndYearData)).insertionSort
    (fun a b => a.year ≤ b.year))

/-- The `countyMap` accumulator of view 6: sum and count of `JOB_VALUE` over
ADU-classified records with a truthy (non-zero) value. -/
def jobValueByCountyFold (rawData : List HousingData) : List (String × ValueAggregate) :=
  gfold (fun row => row.Classification = .ADU ∧ row.JOB_VALUE ≠ 0)
    (fun row => row.COUNTY) (fun _ => ({ sum := 0, count := 0 } : ValueAggregate))
    (fun row acc => { sum := acc.sum + row.JOB_VALUE, count := acc.count + 1 }) rawData

/-- View 6: mean ADU permit value per county over valued ADU records, in
thousands; top 8 counties by mean value descending. -/
def processJobValueByCounty (rawData : List HousingData) : List JobValueByCountyData :=
  (((jobValueByCountyFold rawData).map fun p =>
      ({ county := p.1
         avgValue := roundDiv p.2.sum ((p.2.count : Int) * 1000)
         count := p.2.count } : JobValueByCountyData)).insertionSort
    (fun a b => b.avgValue ≤ a.avgValue)).take 8

/-- The `yearlyMap` accumulator of view 7: sum and count of `JOB_VALUE` over
valued ADU records, grouped by year. -/
def aduValueByYearFold (rawData : List HousingData) : List (Int × ValueAggregate) :=
  gfold (fun row => row.Classification = .ADU ∧ row.JOB_VALUE ≠ 0)
    (fun row => row.YEAR) (fun _ => ({ sum := 0, count := 0 } : ValueAggregate))
    (fun row acc => { sum := acc.sum + row.JOB_VALUE, count := acc.count + 1 }) rawData

/-- View 7: mean ADU permit value per year over valued ADU records, in
thousands, sorted ascending by year. -/
def processAverageAduJobValueByYear (rawData : List HousingData) :
    List AverageAduJobValueByYearData :=
  (((aduValueByYearFold rawData).map fun p =>
      ({ year := p.1
         avgAduValue := roundDiv p.2.sum ((p.2.count : Int) * 1000)
         count := p.2.count } : AverageAduJobValueByYearData)).insertionSort
    (fun a b => a.year ≤ b.year))

/-- The source's `processData`: bundle of all seven views. -/
def processData (rawData : List HousingData) : ChartDataState :=
  { unitsByYear := processUnitsByYear rawData
    aduPercentageByYear := processAduPercentageByYear rawData
    unitsByJurisdiction := processUnitsByJurisdiction rawData
    aduJobValuePercentageByYear := processAduJobValuePercentageByYear rawData
    avgJobValueByStructureTypeAndYear := processAverageJobValueByStructureTypeAndYear rawData
    jobValueByCounty := processJobValueByCounty rawData
    averageAduJobValueByYear := processAverageAduJobValueByYear rawData }

/-- Number of records of year `y` and classification `c`. -/
def yearClassCount (l : List HousingData) (y : Int) (c : Classification) : Nat :=
  match l with
  | [] => 0
  | r :: rest =>
    (if r.YEAR = y ∧ r.Classification = c then 1 else 0) + yearClassCount rest y c

/-- Number of records of year `y`. -/
def yearCount (l : List HousingData) (y : Int) : Nat :=
  match l with
  | [] => 0
  | r :: rest => (if r.YEAR = y then 1 else 0) + yearCount rest y

/-- Total permit value of records of year `y`. -/
def yearValueSum (l : List HousingData) (y : Int) : Int :=
  match l with
  | [] => 0
  | r :: rest => (if r.YEAR = y then r.JOB_VALUE else 0) + yearValueSum rest y

/-- Total permit value of records of year `y` and classification `c`. -/
def yearClassValueSum (l : List HousingData) (y : Int) (c : Classification) : Int :=
  match l with
  | [] => 0
  | r :: rest =>
    (if r.YEAR = y ∧ r.Classification = c then r.JOB_VALUE else 0) +
      yearClassValueSum rest y c

/-- Number of records of county `c`. -/
def countyCount (l : List HousingData) (c : String) : Nat :=
  match l with
  | [] => 0
  | r :: rest => (if r.COUNTY = c then 1 else 0) + countyCount rest c

/-- Number of ADU-classified records of county `c`. -/
def countyAduCount (l : List HousingData) (c : String) : Nat :=
  match l with
  | [] => 0
  | r :: rest =>
    (if r.COUNTY = c ∧ r.Classification = .ADU then 1 else 0) + countyAduCount rest c

/-- A valued ADU record: ADU-classified with a truthy (non-zero) permit value. -/
def valuedAdu (r : HousingData) : Prop :=
  r.Classification = .ADU ∧ r.JOB_VALUE ≠ 0

instance (r : HousingData) : Decidable (valuedAdu r) := by
  unfold valuedAdu
  infer_instance

/-- Number of valued ADU records of county `c`. -/
def countyValuedAduCount (l : List HousingData) (c : String) : Nat :=
  match l with
  | [] => 0
  | r :: rest =>
    (if r.COUNTY = c ∧ valuedAdu r then 1 else 0) + countyValuedAduCount rest c

/-- Total permit value of valued ADU records of county `c`. -/
def countyValuedAduSum (l : List HousingData) (c : String) : Int :=
  match l with
  | [] => 0
  | r :: rest =>
    (if r.COUNTY = c ∧ valuedAdu r then r.JOB_VALUE else 0) + countyValuedAduSum rest c

/-- Number of valued ADU records of year `y`. -/
def yearValuedAduCount (l : List HousingData) (y : Int) : Nat :=
  match l with
  | [] => 0
  | r :: rest =>
    (if r.YEAR = y ∧ valuedAdu r then 1 else 0) + yearValuedAduCount rest y

/-- Total permit value of valued ADU records of year `y`. -/
def yearValuedAduSum (l : List HousingData) (y : Int) : Int :=
  match l with
  | [] => 0
  | r :: rest =>
    (if r.YEAR = y ∧ valuedAdu r then r.JOB_VALUE else 0) + yearValuedAduSum rest y

theorem yearCount_eq_sum_classes (l : List HousingData) (y : Int) :
    yearCount l y =
      yearClassCount l y .ADU + yearClassCount l y .NON_ADU +
        yearClassCount l y .POTENTIAL_ADU_CONVERSION := by
  induction l with
  | nil => rfl
  | cons r rest ih =>
    simp only [yearCount, yearClassCount, ih]
    by_cases hy : r.YEAR = y
    · cases hc : r.Classification <;> simp [hy, hc] <;> omega
    · simp [hy]

theorem unitsFold_gstep_some (y : Int) (l : List HousingData) :
    ∀ u : UnitsByYearData,
      l.foldl (gstep (fun _ => True) (fun row => row.YEAR)
        (fun year => { year := year, ADU := 0, NON_ADU := 0, POTENTIAL_ADU_CONVERSION := 0 })
        (fun row => incClassification row.Classification) y) (some u) =
      some { year := u.year
             ADU := u.ADU + yearClassCount l y .ADU
             NON_ADU := u.NON_ADU + yearClassCount l y .NON_ADU
             POTENTIAL_ADU_CONVERSION :=
               u.POTENTIAL_ADU_CONVERSION + yearClassCount l y .POTENTIAL_ADU_CONVERSION } := by
  induction l with
  | nil => intro u; simp [yearClassCount]
  | cons r rest ih =>
    intro u
    simp only [List.foldl_cons]
    by_cases hy : r.YEAR = y
    · cases hc : r.Classification <;>
        simp [gstep, hy, hc, incClassification, ih, yearClassCount] <;> omega
    · simp [gstep, hy, ih, yearClassCount]

theorem unitsFold_gstep_none (y : Int) (l : List HousingData) :
    l.foldl (gstep (fun _ => True) (fun row => row.YEAR)
      (fun year => { year := year, ADU := 0, NON_ADU := 0, POTENTIAL_ADU_CONVERSION := 0 })
      (fun row => incClassification row.Classification) y) none =
      if 0 < yearCount l y then
        some { year := y
               ADU := yearClassCount l y .ADU
               NON_ADU := yearClassCount l y .NON_ADU
               POTENTIAL_ADU_CONVERSION := yearClassCount l y .POTENTIAL_ADU_CONVERSION }
      else none := by
  induction l with
  | nil => simp [yearCount]
  | cons r rest ih =>
    simp only [List.foldl_cons]
    by_cases hy : r.YEAR = y
    · have h1 : 0 < yearCount (r :: rest) y := by
        simp [yearCount, hy]
      cases hc : r.Classification <;>
        simp [gstep, hy, hc, incClassification, unitsFold_gstep_some, yearClassCount, h1,
          yearCount]
    · have h2 : yearCount (r :: rest) y = yearCount rest y := by simp [yearCount, hy]
      simp only [gstep, hy, and_false, true_and, if_false, ih, h2, yearClassCount, if_neg hy,
        false_and, if_false, Nat.zero_add]

theorem alookup_unitsByYearFold (l : List HousingData) (y : Int) :
    alookup (unitsByYearFold l) y =
      if 0 < yearCount l y then
        some { year := y
               ADU := yearClassCount l y .ADU
               NON_ADU := yearClassCount l y .NON_ADU
               POTENTIAL_ADU_CONVERSION := yearClassCount l y .POTENTIAL_ADU_CONVERSION }
      else none := by
  rw [unitsByYearFold, alookup_gfold]
  exact unitsFold_gstep_none y l

theorem mem_unitsByYearFold {l : List HousingData} {p : Int × UnitsByYearData}
    (hp : p ∈ unitsByYearFold l) :
    p.2 = { year := p.1
            ADU := yearClassCount l p.1 .ADU
            NON_ADU := yearClassCount l p.1 .NON_ADU
            POTENTIAL_ADU_CONVERSION := yearClassCount l p.1 .POTENTIAL_ADU_CONVERSION } ∧
      0 < yearCount l p.1 := by
  have h := alookup_of_mem_gfold _ _ _ _ _ hp
  rw [show gfold (fun _ => True) (fun row => row.YEAR)
      (fun year => { year := year, ADU := 0, NON_ADU := 0, POTENTIAL_ADU_CONVERSION := 0 })
      (fun row => incClassification row.Classification) l = unitsByYearFold l from rfl,
    alookup_unitsByYearFold] at h
  by_cases h0 : 0 < yearCount l p.1
  · rw [if_pos h0] at h
    exact ⟨(Option.some.inj h).symm, h0⟩
  · rw [if_neg h0] at h
    cases h

theorem mem_processUnitsByYear {l : List HousingData} {u : UnitsByYearData}
    (hu : u ∈ processUnitsByYear l) :
    u.ADU = yearClassCount l u.year .ADU ∧
      u.NON_ADU = yearClassCount l u.year .NON_ADU ∧
      u.POTENTIAL_ADU_CONVERSION = yearClassCount l u.year .POTENTIAL_ADU_CONVERSION ∧
      0 < yearCount l u.year := by
  have hm : u ∈ (unitsByYearFold l).map Prod.snd :=
    (List.perm_insertionSort _ _).mem_iff.mp hu
  obtain ⟨p, hp, hpu⟩ := List.mem_map.mp hm
  obtain ⟨hval, hcnt⟩ := mem_unitsByYearFold hp
  subst hpu
  rw [hval]
  simp only [true_and]
  exact hcnt

theorem jurisdictionFold_gstep_some (c : String) (l : List HousingData) :
    ∀ v : JurisdictionCounts,
      l.foldl (gstep (fun _ => True) (fun row => row.COUNTY)
        (fun _ => ({ ADU := 0, total := 0 } : JurisdictionCounts))
        (fun row acc =>
          { ADU := if row.Classification = .ADU then acc.ADU + 1 else acc.ADU
            total := acc.total + 1 }) c) (some v) =
      some { ADU := v.ADU + countyAduCount l c, total := v.total + countyCount l c } := by
  induction l with
  | nil => intro v; simp [countyAduCount, countyCount]
  | cons r rest ih =>
    intro v
    simp only [List.foldl_cons]
    by_cases hc : r.COUNTY = c
    · by_cases hcl : r.Classification = .ADU <;>
        simp [gstep, hc, hcl, ih, countyAduCount, countyCount] <;> omega
    · simp [gstep, hc, ih, countyAduCount, countyCount]

theorem jurisdictionFold_gstep_none (c : String) (l : List HousingData) :
    l.foldl (gstep (fun _ => True) (fun row => row.COUNTY)
      (fun _ => ({ ADU := 0, total := 0 } : JurisdictionCounts))
      (fun row acc =>
        { ADU := if row.Classification = .ADU then acc.ADU + 1 else acc.ADU
          total := acc.total + 1 }) c) none =
      if 0 < countyCount l c then
        some { ADU := countyAduCount l c, total := countyCount l c }
      else none := by
  induction l with
  | nil => simp [countyCount]
  | cons r rest ih =>
    simp only [List.foldl_cons]
    by_cases hc : r.COUNTY = c
    · have h1 : 0 < countyCount (r :: rest) c := by simp [countyCount, hc]
      by_cases hcl : r.Classification = .ADU <;>
        simp [gstep, hc, hcl, jurisdictionFold_gstep_some, countyAduCount, countyCount, h1]
    · have h2 : countyCount (r :: rest) c = countyCount rest c := by simp [countyCount, hc]
      have h3 : countyAduCount (r :: rest) c = countyAduCount rest c := by
        simp [countyAduCount, hc]
      simp only [gstep, hc, and_false, true_and, if_false, ih, h2, h3]

theorem alookup_jurisdictionFold (l : List HousingData) (c : String) :
    alookup (jurisdictionFold l) c =
      if 0 < countyCount l c then
        some { ADU := countyAduCount l c, total := countyCount l c }
      else none := by
  rw [jurisdictionFold, alookup_gfold]
  exact jurisdictionFold_gstep_none c l

theorem mem_jurisdictionFold {l : List HousingData} {p : String × JurisdictionCounts}
    (hp : p ∈ jurisdictionFold l) :
    p.2 = { ADU := countyAduCount l p.1, total := countyCount l p.1 } ∧
      0 < countyCount l p.1 := by
  have h := alookup_of_mem_gfold _ _ _ _ _ hp
  rw [show gfold (fun _ => True) (fun row => row.COUNTY)
      (fun _ => ({ ADU := 0, total := 0 } : JurisdictionCounts))
      (fun row acc =>
        { ADU := if row.Classification = .ADU then acc.ADU + 1 else acc.ADU
          total := acc.total + 1 }) l = jurisdictionFold l from rfl,
    alookup_jurisdictionFold] at h
  by_cases h0 : 0 < countyCount l p.1
  · rw [if_pos h0] at h
    exact ⟨(Option.some.inj h).symm, h0⟩
  · rw [if_neg h0] at h
    cases h

theorem yearValueShareFold_gstep_some (y : Int) (l : List HousingData) :
    ∀ v : YearValueShare,
      l.foldl (gstep (fun _ => True) (fun row => row.YEAR)
        (fun _ => ({ aduValue := 0, totalValue := 0 } : YearValueShare))
        (fun row acc =>
          { totalValue := acc.totalValue + row.JOB_VALUE
            aduValue :=
              if row.Classification = .ADU then acc.aduValue + row.JOB_VALUE
              else acc.aduValue }) y) (some v) =
      some { aduValue := v.aduValue + yearClassValueSum l y .ADU
             totalValue := v.totalValue + yearValueSum l y } := by
  induction l with
  | nil => intro v; simp [yearClassValueSum, yearValueSum]
  | cons r rest ih =>
    intro v
    simp only [List.foldl_cons]
    by_cases hy : r.YEAR = y
    · by_cases hcl : r.Classification = .ADU <;>
        simp [gstep, hy, hcl, ih, yearClassValueSum, yearValueSum] <;> omega
    · simp [gstep, hy, ih, yearClassValueSum, yearValueSum]

theorem yearValueShareFold_gstep_none (y : Int) (l : List HousingData) :
    l.foldl (gstep (fun _ => True) (fun row => row.YEAR)
      (fun _ => ({ aduValue := 0, totalValue := 0 } : YearValueShare))
      (fun row acc =>
        { totalValue := acc.totalValue + row.JOB_VALUE
          aduValue :=
            if row.Classification = .ADU then acc.aduValue + row.JOB_VALUE
            else acc.aduValue }) y) none =
      if 0 < yearCount l y then
        some { aduValue := yearClassValueSum l y .ADU, totalValue := yearValueSum l y }
      else none := by
  induction l with
  | nil => simp [yearCount]
  | cons r rest ih =>
    simp only [List.foldl_cons]
    by_cases hy : r.YEAR = y
    · have h1 : 0 < yearCount (r :: rest) y := by simp [yearCount, hy]
      by_cases hcl : r.Classification = .ADU <;>
        simp [gstep, hy, hcl, yearValueShareFold_gstep_some, yearClassValueSum, yearValueSum,
          h1]
    · have h2 : yearCount (r :: rest) y = yearCount rest y := by simp [yearCount, hy]
      have h3 : yearValueSum (r :: rest) y = yearValueSum rest y := by simp [yearValueSum, hy]
      have h4 : yearClassValueSum (r :: rest) y .ADU = yearClassValueSum rest y .ADU := by
        simp [yearClassValueSum, hy]
      simp only [gstep, hy, and_false, true_and, if_false, ih, h2, h3, h4]

theorem alookup_yearValueShareFold (l : List HousingData) (y : Int) :
    alookup (yearValueShareFold l) y =
      if 0 < yearCount l y then
        some { aduValue := yearClassValueSum l y .ADU, totalValue := yearValueSum l y }
      else none := by
  rw [yearValueShareFold, alookup_gfold]
  exact yearValueShareFold_gstep_none y l

theorem mem_yearValueShareFold {l : List HousingData} {p : Int × YearValueShare}
    (hp : p ∈ yearValueShareFold l) :
    p.2 = { aduValue := yearClassValueSum l p.1 .ADU, totalValue := yearValueSum l p.1 } ∧
      0 < yearCount l p.1 := by
  have h := alookup_of_mem_gfold _ _ _ _ _ hp
  rw [show gfold (fun _ => True) (fun row => row.YEAR)
      (fun _ => ({ aduValue := 0, totalValue := 0 } : YearValueShare))
      (fun row acc =>
        { totalValue := acc.totalValue + row.JOB_VALUE
          aduValue :=
            if row.Classification = .ADU then acc.aduValue + row.JOB_VALUE
            else acc.aduValue }) l = yearValueShareFold l from rfl,
    alookup_yearValueShareFold] at h
  by_cases h0 : 0 < yearCount l p.1
  · rw [if_pos h0] at h
    exact ⟨(Option.some.inj h).symm, h0⟩
  · rw [if_neg h0] at h
    cases h

theorem structureTypeFold_gstep_some (y : Int) (l : List HousingData) :
    ∀ v : StructureTypeAgg,
      l.foldl (gstep (fun _ => True) (fun row => row.YEAR)
        (fun _ =>
          ({ ADU := { sum := 0, count := 0 }
             NON_ADU := { sum := 0, count := 0 }
             POTENTIAL_ADU_CONVERSION := { sum := 0, count := 0 } } : StructureTypeAgg))
        (fun row => addToClassification row.Classification row.JOB_VALUE) y) (some v) =
      some { ADU := { sum := v.ADU.sum + yearClassValueSum l y .ADU
                      count := v.ADU.count + yearClassCount l y .ADU }
             NON_ADU := { sum := v.NON_ADU.sum + yearClassValueSum l y .NON_ADU
                          count := v.NON_ADU.count + yearClassCount l y .NON_ADU }
             POTENTIAL_ADU_CONVERSION :=
               { sum := v.POTENTIAL_ADU_CONVERSION.sum +
                   yearClassValueSum l y .POTENTIAL_ADU_CONVERSION
                 count := v.POTENTIAL_ADU_CONVERSION.count +
                   yearClassCount l y .POTENTIAL_ADU_CONVERSION } } := by
  induction l with
  | nil => intro v; simp [yearClassValueSum, yearClassCount]
  | cons r rest ih =>
    intro v
    simp only [List.foldl_cons]
    by_cases hy : r.YEAR = y
    · cases hc : r.Classification <;>
        simp [gstep, hy, hc, addToClassification, ih, yearClassValueSum, yearClassCount] <;>
        omega
    · simp [gstep, hy, ih, yearClassValueSum, yearClassCount]

theorem structureTypeFold_gstep_none (y : Int) (l : List HousingData) :
    l.foldl (gstep (fun _ => True) (fun row => row.YEAR)
      (fun _ =>
        ({ ADU := { sum := 0, count := 0 }
           NON_ADU := { sum := 0, count := 0 }
           POTENTIAL_ADU_CONVERSION := { sum := 0, count := 0 } } : StructureTypeAgg))
      (fun row => addToClassification row.Classification row.JOB_VALUE) y) none =
      if 0 < yearCount l y then
        some { ADU := { sum := yearClassValueSum l y .ADU, count := yearClassCount l y .ADU }
               NON_ADU := { sum := yearClassValueSum l y .NON_ADU
                            count := yearClassCount l y .NON_ADU }
               POTENTIAL_ADU_CONVERSION :=
                 { sum := yearClassValueSum l y .POTENTIAL_ADU_CONVERSION
                   count := yearClassCount l y .POTENTIAL_ADU_CONVERSION } }
      else none := by
  induction l with
  | nil => simp [yearCount]
  | cons r rest ih =>
    simp only [List.foldl_cons]
    by_cases hy : r.YEAR = y
    · have h1 : 0 < yearCount (r :: rest) y := by simp [yearCount, hy]
      cases hc : r.Classification <;>
        simp [gstep, hy, hc, addToClassification, structureTypeFold_gstep_some,
          yearClassValueSum, yearClassCount, h1]
    · have h2 : yearCount (r :: rest) y = yearCount rest y := by simp [yearCount, hy]
      have h3 : ∀ c, yearClassValueSum (r :: rest) y c = yearClassValueSum rest y c := by
        intro c; simp [yearClassValueSum, hy]
      have h4 : ∀ c, yearClassCount (r :: rest) y c = yearClassCount rest y c := by
        intro c; simp [yearClassCount, hy]
      simp only [gstep, hy, and_false, true_and, if_false, ih, h2, h3, h4]

theorem alookup_structureTypeFold (l : List HousingData) (y : Int) :
    alookup (structureTypeFold l) y =
      if 0 < yearCount l y then
        some { ADU := { sum := yearClassValueSum l y .ADU, count := yearClassCount l y .ADU }
               NON_ADU := { sum := yearClassValueSum l y .NON_ADU
                            count := yearClassCount l y .NON_ADU }
               POTENTIAL_ADU_CONVERSION :=
                 { sum := yearClassValueSum l y .POTENTIAL_ADU_CONVERSION
                   count := yearClassCount l y .POTENTIAL_ADU_CONVERSION } }
      else none := by
  rw [structureTypeFold, alookup_gfold]
  exact structureTypeFold_gstep_none y l

theorem mem_structureTypeFold {l : List HousingData} {p : Int × StructureTypeAgg}
    (hp : p ∈ structureTypeFold l) :
    p.2 = { ADU := { sum := yearClassValueSum l p.1 .ADU, count := yearClassCount l p.1 .ADU }
            NON_ADU := { sum := yearClassValueSum l p.1 .NON_ADU
                         count := yearClassCount l p.1 .NON_ADU }
            POTENTIAL_ADU_CONVERSION :=
              { sum := yearClassValueSum l p.1 .POTENTIAL_ADU_CONVERSION
                count := yearClassCount l p.1 .POTENTIAL_ADU_CONVERSION } } ∧
      0 < yearCount l p.1 := by
  have h := alookup_of_mem_gfold _ _ _ _ _ hp
  rw [show gfold (fun _ => True) (fun row => row.YEAR)
      (fun _ =>
        ({ ADU := { sum := 0, count := 0 }
           NON_ADU := { sum := 0, count := 0 }
           POTENTIAL_ADU_CONVERSION := { sum := 0, count := 0 } } : StructureTypeAgg))
      (fun row => addToClassification row.Classification row.JOB_VALUE) l =
      structureTypeFold l from rfl, alookup_structureTypeFold] at h
  by_cases h0 : 0 < yearCount l p.1
  · rw [if_pos h0] at h
    exact ⟨(Option.some.inj h).symm, h0⟩
  · rw [if_neg h0] at h
    cases h

theorem jobValueByCountyFold_gstep_some (c : String) (l : List HousingData) :
    ∀ v : ValueAggregate,
      l.foldl (gstep (fun row => row.Classification = .ADU ∧ row.JOB_VALUE ≠ 0)
        (fun row => row.COUNTY) (fun _ => ({ sum := 0, count := 0 } : ValueAggregate))
        (fun row acc => { sum := acc.sum + row.JOB_VALUE, count := acc.count + 1 }) c)
        (some v) =
      some { sum := v.sum + countyValuedAduSum l c
             count := v.count + countyValuedAduCount l c } := by
  induction l with
  | nil => intro v; simp [countyValuedAduSum, countyValuedAduCount]
  | cons r rest ih =>
    intro v
    simp only [List.foldl_cons]
    by_cases hq : (r.Classification = .ADU ∧ r.JOB_VALUE ≠ 0) ∧ r.COUNTY = c
    · have hval : r.COUNTY = c ∧ valuedAdu r := ⟨hq.2, hq.1⟩
      simp [gstep, hq, ih, countyValuedAduSum, countyValuedAduCount, hval]
      omega
    · have hval : ¬(r.COUNTY = c ∧ valuedAdu r) := by
        unfold valuedAdu
        tauto
      simp [gstep, hq, ih, countyValuedAduSum, countyValuedAduCount, hval]

theorem jobValueByCountyFold_gstep_none (c : String) (l : List HousingData) :
    l.foldl (gstep (fun row => row.Classification = .ADU ∧ row.JOB_VALUE ≠ 0)
      (fun row => row.COUNTY) (fun _ => ({ sum := 0, count := 0 } : ValueAggregate))
      (fun row acc => { sum := acc.sum + row.JOB_VALUE, count := acc.count + 1 }) c) none =
      if 0 < countyValuedAduCount l c then
        some { sum := countyValuedAduSum l c, count := countyValuedAduCount l c }
      else none := by
  induction l with
  | nil => simp [countyValuedAduCount]
  | cons r rest ih =>
    simp only [List.foldl_cons]
    by_cases hq : (r.Classification = .ADU ∧ r.JOB_VALUE ≠ 0) ∧ r.COUNTY = c
    · have hval : r.COUNTY = c ∧ valuedAdu r := ⟨hq.2, hq.1⟩
      have h1 : 0 < countyValuedAduCount (r :: rest) c := by
        simp [countyValuedAduCount, hval]
      simp [gstep, hq, jobValueByCountyFold_gstep_some, countyValuedAduSum,
        countyValuedAduCount, hval, h1]
    · have hval : ¬(r.COUNTY = c ∧ valuedAdu r) := by
        unfold valuedAdu
        tauto
      have h2 : countyValuedAduCount (r :: rest) c = countyValuedAduCount rest c := by
        simp [countyValuedAduCount, hval]
      have h3 : countyValuedAduSum (r :: rest) c = countyValuedAduSum rest c := by
        simp [countyValuedAduSum, hval]
      simp only [gstep, if_neg hq, ih, h2, h3]

theorem alookup_jobValueByCountyFold (l : List HousingData) (c : String) :
    alookup (jobValueByCountyFold l) c =
      if 0 < countyValuedAduCount l c then
        some { sum := countyValuedAduSum l c, count := countyValuedAduCount l c }
      else none := by
  rw [jobValueByCountyFold, alookup_gfold]
  exact jobValueByCountyFold_gstep_none c l

theorem mem_jobValueByCountyFold {l : List HousingData} {p : String × ValueAggregate}
    (hp : p ∈ jobValueByCountyFold l) :
    p.2 = { sum := countyValuedAduSum l p.1, count := countyValuedAduCount l p.1 } ∧
      0 < countyValuedAduCount l p.1 := by
  have h := alookup_of_mem_gfold _ _ _ _ _ hp
  rw [show gfold (fun row => row.Classification = .ADU ∧ row.JOB_VALUE ≠ 0)
      (fun row => row.COUNTY) (fun _ => ({ sum := 0, count := 0 } : ValueAggregate))
      (fun row acc => { sum := acc.sum + row.JOB_VALUE, count := acc.count + 1 }) l =
      jobValueByCountyFold l from rfl, alookup_jobValueByCountyFold] at h
  by_cases h0 : 0 < countyValuedAduCount l p.1
  · rw [if_pos h0] at h
    exact ⟨(Option.some.inj h).symm, h0⟩
  · rw [if_neg h0] at h
    cases h

theorem aduValueByYearFold_gstep_some (y : Int) (l : List HousingData) :
    ∀ v : ValueAggregate,
      l.foldl (gstep (fun row => row.Classification = .ADU ∧ row.JOB_VALUE ≠ 0)
        (fun row => row.YEAR) (fun _ => ({ sum := 0, count := 0 } : ValueAggregate))
        (fun row acc => { sum := acc.sum + row.JOB_VALUE, count := acc.count + 1 }) y)
        (some v) =
      some { sum := v.sum + yearValuedAduSum l y
             count := v.count + yearValuedAduCount l y } := by
  induction l with
  | nil => intro v; simp [yearValuedAduSum, yearValuedAduCount]
  | cons r rest ih =>
    intro v
    simp only [List.foldl_cons]
    by_cases hq : (r.Classification = .ADU ∧ r.JOB_VALUE ≠ 0) ∧ r.YEAR = y
    · have hval : r.YEAR = y ∧ valuedAdu r := ⟨hq.2, hq.1⟩
      simp [gstep, hq, ih, yearValuedAduSum, yearValuedAduCount, hval]
      omega
    · have hval : ¬(r.YEAR = y ∧ valuedAdu r) := by
        unfold valuedAdu
        tauto
      simp [gstep, hq, ih, yearValuedAduSum, yearValuedAduCount, hval]

theorem aduValueByYearFold_gstep_none (y : Int) (l : List HousingData) :
    l.foldl (gstep (fun row => row.Classification = .ADU ∧ row.JOB_VALUE ≠ 0)
      (fun row => row.YEAR) (fun _ => ({ sum := 0, count := 0 } : ValueAggregate))
      (fun row acc => { sum := acc.sum + row.JOB_VALUE, count := acc.count + 1 }) y) none =
      if 0 < yearValuedAduCount l y then
        some { sum := yearValuedAduSum l y, count := yearValuedAduCount l y }
      else none := by
  induction l with
  | nil => simp [yearValuedAduCount]
  | cons r rest ih =>
    simp only [List.foldl_cons]
    by_cases hq : (r.Classification = .ADU ∧ r.JOB_VALUE ≠ 0) ∧ r.YEAR = y
    · have hval : r.YEAR = y ∧ valuedAdu r := ⟨hq.2, hq.1⟩
      have h1 : 0 < yearValuedAduCount (r :: rest) y := by
        simp [yearValuedAduCount, hval]
      simp [gstep, hq, aduValueByYearFold_gstep_some, yearValuedAduSum,
        yearValuedAduCount, hval, h1]
    · have hval : ¬(r.YEAR = y ∧ valuedAdu r) := by
        unfold valuedAdu
        tauto
      have h2 : yearValuedAduCount (r :: rest) y = yearValuedAduCount rest y := by
        simp [yearValuedAduCount, hval]
      have h3 : yearValuedAduSum (r :: rest) y = yearValuedAduSum rest y := by
        simp [yearValuedAduSum, hval]
      simp only [gstep, if_neg hq, ih, h2, h3]

theorem alookup_aduValueByYearFold (l : List HousingData) (y : Int) :
    alookup (aduValueByYearFold l) y =
      if 0 < yearValuedAduCount l y then
        some { sum := yearValuedAduSum l y, count := yearValuedAduCount l y }
      else none := by
  rw [aduValueByYearFold, alookup_gfold]
  exact aduValueByYearFold_gstep_none y l

theorem mem_aduValueByYearFold {l : List HousingData} {p : Int × ValueAggregate}
    (hp : p ∈ aduValueByYearFold l) :
    p.2 = { sum := yearValuedAduSum l p.1, count := yearValuedAduCount l p.1 } ∧
      0 < yearValuedAduCount l p.1 := by
  have h := alookup_of_mem_gfold _ _ _ _ _ hp
  rw [show gfold (fun row => row.Classification = .ADU ∧ row.JOB_VALUE ≠ 0)
      (fun row => row.YEAR) (fun _ => ({ sum := 0, count := 0 } : ValueAggregate))
      (fun row acc => { sum := acc.sum + row.JOB_VALUE, count := acc.count + 1 }) l =
      aduValueByYearFold l from rfl, alookup_aduValueByYearFold] at h
  by_cases h0 : 0 < yearValuedAduCount l p.1
  · rw [if_pos h0] at h
    exact ⟨(Option.some.inj h).symm, h0⟩
  · rw [if_neg h0] at h
    cases h

theorem mem_processAduPercentageByYear {l : List HousingData} {u : AduPercentageByYearData}
    (hu : u ∈ processAduPercentageByYear l) :
    u.aduCount = yearClassCount l u.year .ADU ∧
      u.totalCount = yearCount l u.year ∧
      u.aduPercentage =
        (if 0 < yearCount l u.year then
          roundDiv (100 * (yearClassCount l u.year .ADU : Int)) (yearCount l u.year : Int)
        else 0) ∧
      0 < yearCount l u.year := by
  obtain ⟨w, hw, rfl⟩ := List.mem_map.mp hu
  obtain ⟨hA, hN, hP, hpos⟩ := mem_processUnitsByYear hw
  have htot : w.ADU + w.NON_ADU + w.POTENTIAL_ADU_CONVERSION = yearCount l w.year := by
    rw [hA, hN, hP, yearCount_eq_sum_classes]
  refine ⟨hA, htot, ?_, hpos⟩
  rw [htot, hA]

theorem mem_processUnitsByJurisdiction {l : List HousingData} {u : UnitsByJurisdictionData}
    (hu : u ∈ processUnitsByJurisdiction l) :
    u.ADU = countyAduCount l u.county ∧
      u.total = countyCount l u.county ∧
      0 < countyCount l u.county := by
  have hs := List.take_subset 8 _ hu
  have hm := (List.perm_insertionSort _ _).mem_iff.mp hs
  obtain ⟨p, hp, rfl⟩ := List.mem_map.mp hm
  obtain ⟨hval, hpos⟩ := mem_jurisdictionFold hp
  rw [hval]
  exact ⟨rfl, rfl, hpos⟩

theorem mem_processAduJobValuePercentageByYear {l : List HousingData}
    {u : AduJobValuePercentageByYearData} (hu : u ∈ processAduJobValuePercentageByYear l) :
    u.aduValue = yearClassValueSum l u.year .ADU ∧
      u.totalValue = yearValueSum l u.year ∧
      u.aduJobValuePercentage =
        (if (0 : Int) < u.totalValue then roundDiv (100 * u.aduValue) u.totalValue else 0) ∧
      0 < yearCount l u.year := by
  have hm := (List.perm_insertionSort _ _).mem_iff.mp hu
  obtain ⟨p, hp, rfl⟩ := List.mem_map.mp hm
  obtain ⟨hval, hpos⟩ := mem_yearValueShareFold hp
  rw [hval]
  exact ⟨rfl, rfl, rfl, hpos⟩

theorem mem_processAverageJobValueByStructureTypeAndYear {l : List HousingData}
    {u : AvgJobValueByStructureTypeAndYearData}
    (hu : u ∈ processAverageJobValueByStructureTypeAndYear l) :
    u.ADU =
        (if 0 < yearClassCount l u.year .ADU then
          roundDiv (yearClassValueSum l u.year .ADU) (yearClassCount l u.year .ADU : Int)
        else 0) ∧
      u.NON_ADU =
        (if 0 < yearClassCount l u.year .NON_ADU then
          roundDiv (yearClassValueSum l u.year .NON_ADU)
            (yearClassCount l u.year .NON_ADU : Int)
        else 0) ∧
      u.POTENTIAL_ADU_CONVERSION =
        (if 0 < yearClassCount l u.year .POTENTIAL_ADU_CONVERSION then
          roundDiv (yearClassValueSum l u.year .POTENTIAL_ADU_CONVERSION)
            (yearClassCount l u.year .POTENTIAL_ADU_CONVERSION : Int)
        else 0) ∧
      0 < yearCount l u.year := by
  have hm := (List.perm_insertionSort _ _).mem_iff.mp hu
  obtain ⟨p, hp, rfl⟩ := List.mem_map.mp hm
  obtain ⟨hval, hpos⟩ := mem_structureTypeFold hp
  rw [hval]
  exact ⟨rfl, rfl, rfl, hpos⟩

theorem mem_processJobValueByCounty {l : List HousingData} {u : JobValueByCountyData}
    (hu : u ∈ processJobValueByCounty l) :
    u.count = countyValuedAduCount l u.county ∧
      u.avgValue =
        roundDiv (countyValuedAduSum l u.county)
          ((countyValuedAduCount l u.county : Int) * 1000) ∧
      0 < countyValuedAduCount l u.county := by
  have hs := List.take_subset 8 _ hu
  have hm := (List.perm_insertionSort _ _).mem_iff.mp hs
  obtain ⟨p, hp, rfl⟩ := List.mem_map.mp hm
  obtain ⟨hval, hpos⟩ := mem_jobValueByCountyFold hp
  rw [hval]
  exact ⟨rfl, rfl, hpos⟩

theorem mem_processAverageAduJobValueByYear {l : List HousingData}
    {u : AverageAduJobValueByYearData} (hu : u ∈ processAverageAduJobValueByYear l) :
    u.count = yearValuedAduCount l u.year ∧
      u.avgAduValue =
        roundDiv (yearValuedAduSum l u.year) ((yearValuedAduCount l u.year : Int) * 1000) ∧
      0 < yearValuedAduCount l u.year := by
  have hm := (List.perm_insertionSort _ _).mem_iff.mp hu
  obtain ⟨p, hp, rfl⟩ := List.mem_map.mp hm
  obtain ⟨hval, hpos⟩ := mem_aduValueByYearFold hp
  rw [hval]
  exact ⟨rfl, rfl, hpos⟩

theorem mem_of_alookup {κ α : Type} [DecidableEq κ] {m : List (κ × α)} {k : κ} {v : α}
    (h : alookup m k = some v) : (k, v) ∈ m := by
  induction m with
  | nil => simp [alookup] at h
  | cons p rest ih =>
    obtain ⟨k', v'⟩ := p
    by_cases hk : k' = k
    · subst hk
      have h2 : v' = v := by simpa [alookup] using h
      subst h2
      exact List.mem_cons_self _ _
    · simp only [alookup, if_neg hk] at h
      exact List.mem_cons_of_mem _ (ih h)

theorem pairwise_keyLt_insertionSort {β : Type} (key : β → Int) (base : List β)
    [DecidableRel (fun a b : β => key a ≤ key b)]
    (hnodup : (base.map key).Nodup) :
    List.Pairwise (fun a b => key a < key b)
      (base.insertionSort (fun a b => key a ≤ key b)) := by
  haveI : IsTotal β (fun a b => key a ≤ key b) := ⟨fun a b => le_total _ _⟩
  haveI : IsTrans β (fun a b => key a ≤ key b) := ⟨fun a b c h1 h2 => le_trans h1 h2⟩
  have hs := List.sorted_insertionSort (fun a b => key a ≤ key b) base
  have hperm := List.perm_insertionSort (fun a b => key a ≤ key b) base
  have hnd : ((base.insertionSort (fun a b => key a ≤ key b)).map key).Nodup :=
    ((hperm.map key).nodup_iff).mpr hnodup
  have hne := List.pairwise_map.mp hnd
  exact (List.Pairwise.and hs hne).imp fun h => lt_of_le_of_ne h.1 h.2

theorem filter_orderedInsert_pos {β : Type} (r : β → β → Prop) [DecidableRel r]
    (p : β → Bool) (a : β) (hpa : p a = true) (l : List β) :
    (∀ b ∈ l, p b = true → r a b) →
      (List.orderedInsert r a l).filter p = a :: l.filter p := by
  induction l with
  | nil =>
    intro _
    simp [List.orderedInsert, hpa]
  | cons b l ih =>
    intro h
    by_cases hr : r a b
    · simp [List.orderedInsert, hr, List.filter_cons, hpa]
    · have hpb : ¬ p b = true := fun hpb => hr (h b (List.mem_cons_self _ _) hpb)
      have ih' := ih fun c hc hpc => h c (List.mem_cons_of_mem _ hc) hpc
      simp [List.orderedInsert, hr, List.filter_cons, hpb, ih']

theorem filter_orderedInsert_neg {β : Type} (r : β → β → Prop) [DecidableRel r]
    (p : β → Bool) (a : β) (hpa : p a = false) (l : List β) :
    (List.orderedInsert r a l).filter p = l.filter p := by
  induction l with
  | nil => simp [List.orderedInsert, hpa]
  | cons b l ih =>
    by_cases hr : r a b
    · simp [List.orderedInsert, hr, List.filter_cons, hpa]
    · simp only [List.orderedInsert, if_neg hr, List.filter_cons, ih]

theorem filter_insertionSort {β : Type} (r : β → β → Prop) [DecidableRel r] (p : β → Bool)
    (htie : ∀ a b, p a = true → p b = true → r a b) (l : List β) :
    (List.insertionSort r l).filter p = l.filter p := by
  induction l with
  | nil => rfl
  | cons a l ih =>
    simp only [List.insertionSort]
    by_cases hpa : p a = true
    · have h : ∀ b ∈ List.insertionSort r l, p b = true → r a b := fun b _ hb => htie a b hpa hb
      rw [filter_orderedInsert_pos r p a hpa _ h, ih, List.filter_cons, if_pos hpa]
    · have hpa' : p a = false := by simpa using hpa
      rw [filter_orderedInsert_neg r p a hpa', ih, List.filter_cons, if_neg hpa]

/-- Index of the first record of county `c` in the input (first appearance). -/
def firstIdx (l : List HousingData) (c : String) : Nat :=
  l.findIdx fun r => decide (r.COUNTY = c)

theorem keys_gfold_concat {R κ α : Type} [DecidableEq κ] (cond : R → Prop)
    [DecidablePred cond] (key : R → κ) (d : κ → α) (f : R → α → α) (l : List R) (r : R) :
    (gfold cond key d f (l ++ [r])).map Prod.fst =
      if cond r then
        (if key r ∈ (gfold cond key d f l).map Prod.fst then
          (gfold cond key d f l).map Prod.fst
        else (gfold cond key d f l).map Prod.fst ++ [key r])
      else (gfold cond key d f l).map Prod.fst := by
  simp only [gfold, List.foldl_append, List.foldl_cons, List.foldl_nil]
  by_cases hc : cond r
  · simp only [if_pos hc, keys_upsert]
  · simp only [if_neg hc]

theorem firstIdx_append_of_lt (l : List HousingData) (r : HousingData) (c : String)
    (h : firstIdx l c < l.length) : firstIdx (l ++ [r]) c = firstIdx l c := by
  unfold firstIdx at h ⊢
  rw [List.findIdx_append, if_pos h]

theorem firstIdx_append_self (l : List HousingData) (r : HousingData)
    (h : ∀ x ∈ l, x.COUNTY ≠ r.COUNTY) : firstIdx (l ++ [r]) r.COUNTY = l.length := by
  have hnlt : ¬ l.findIdx (fun x => decide (x.COUNTY = r.COUNTY)) < l.length := by
    rw [List.findIdx_lt_length]
    rintro ⟨x, hx, hpx⟩
    exact h x hx (by simpa using hpx)
  rw [firstIdx, List.findIdx_append, if_neg hnlt]
  simp [List.findIdx_cons]

theorem mem_keys_jurisdictionFold (l : List HousingData) (c : String) :
    c ∈ (jurisdictionFold l).map Prod.fst ↔ ∃ r ∈ l, r.COUNTY = c := by
  rw [show jurisdictionFold l = gfold (fun _ => True) (fun row => row.COUNTY)
      (fun _ => ({ ADU := 0, total := 0 } : JurisdictionCounts))
      (fun row acc =>
        { ADU := if row.Classification = .ADU then acc.ADU + 1 else acc.ADU
          total := acc.total + 1 }) l from rfl, mem_keys_gfold]
  simp

theorem jurisdictionFold_keys_firstIdx (l : List HousingData) :
    ((jurisdictionFold l).map Prod.fst).Pairwise
        (fun c c' => firstIdx l c < firstIdx l c') ∧
      ∀ c ∈ (jurisdictionFold l).map Prod.fst, firstIdx l c < l.length := by
  induction l using List.reverseRecOn with
  | nil =>
    refine ⟨?_, ?_⟩ <;> simp [jurisdictionFold, gfold]
  | append_singleton l r ih =>
    obtain ⟨ihp, ihb⟩ := ih
    have hkeys : (jurisdictionFold (l ++ [r])).map Prod.fst =
        if r.COUNTY ∈ (jurisdictionFold l).map Prod.fst then
          (jurisdictionFold l).map Prod.fst
        else (jurisdictionFold l).map Prod.fst ++ [r.COUNTY] := by
      have := keys_gfold_concat (fun _ : HousingData => True) (fun row => row.COUNTY)
        (fun _ => ({ ADU := 0, total := 0 } : JurisdictionCounts))
        (fun row acc =>
          { ADU := if row.Classification = .ADU then acc.ADU + 1 else acc.ADU
            total := acc.total + 1 }) l r
      simpa using this
    have hstable : ∀ c ∈ (jurisdictionFold l).map Prod.fst,
        firstIdx (l ++ [r]) c = firstIdx l c := fun c hc =>
      firstIdx_append_of_lt l r c (ihb c hc)
    have hlen : (l ++ [r]).length = l.length + 1 := by simp
    by_cases hin : r.COUNTY ∈ (jurisdictionFold l).map Prod.fst
    · rw [hkeys, if_pos hin]
      refine ⟨ihp.imp_of_mem ?_, ?_⟩
      · intro a b ha hb hab
        rw [hstable a ha, hstable b hb]
        exact hab
      · intro c hc
        rw [hstable c hc, hlen]
        exact Nat.lt_succ_of_lt (ihb c hc)
    · have habs : ∀ x ∈ l, x.COUNTY ≠ r.COUNTY := by
        intro x hx hcx
        exact hin ((mem_keys_jurisdictionFold l r.COUNTY).mpr ⟨x, hx, hcx⟩)
      have hnew : firstIdx (l ++ [r]) r.COUNTY = l.length := firstIdx_append_self l r habs
      rw [hkeys, if_neg hin]
      refine ⟨List.pairwise_append.mpr ⟨ihp.imp_of_mem ?_, List.pairwise_singleton _ _, ?_⟩, ?_⟩
      · intro a b ha hb hab
        rw [hstable a ha, hstable b hb]
        exact hab
      · intro a ha b hb
        rw [List.mem_singleton.mp hb, hstable a ha, hnew]
        exact ihb a ha
      · intro c hc
        rcases List.mem_append.mp hc with hc | hc
        · rw [hstable c hc, hlen]
          exact Nat.lt_succ_of_lt (ihb c hc)
        · rw [List.mem_singleton.mp hc, hnew, hlen]
          exact Nat.lt_succ_self _

theorem jurisdictionFold_pairwise_firstIdx (l : List HousingData) :
    (jurisdictionFold l).Pairwise (fun p q => firstIdx l p.1 < firstIdx l q.1) := by
  have h := (jurisdictionFold_keys_firstIdx l).1
  exact (@List.pairwise_map _ _ Prod.fst (fun c c' => firstIdx l c < firstIdx l c')
    (jurisdictionFold l)).mp h

theorem nodup_keys_unitsByYearFold (l : List HousingData) :
    ((unitsByYearFold l).map Prod.fst).Nodup :=
  nodup_keys_gfold _ _ _ _ _

theorem nodup_keys_jurisdictionFold (l : List HousingData) :
    ((jurisdictionFold l).map Prod.fst).Nodup :=
  nodup_keys_gfold _ _ _ _ _

theorem nodup_keys_yearValueShareFold (l : List HousingData) :
    ((yearValueShareFold l).map Prod.fst).Nodup :=
  nodup_keys_gfold _ _ _ _ _

theorem nodup_keys_structureTypeFold (l : List HousingData) :
    ((structureTypeFold l).map Prod.fst).Nodup :=
  nodup_keys_gfold _ _ _ _ _

theorem nodup_keys_jobValueByCountyFold (l : List HousingData) :
    ((jobValueByCountyFold l).map Prod.fst).Nodup :=
  nodup_keys_gfold _ _ _ _ _

theorem nodup_keys_aduValueByYearFold (l : List HousingData) :
    ((aduValueByYearFold l).map Prod.fst).Nodup :=
  nodup_keys_gfold _ _ _ _ _

/-- Number of distinct county strings in the input. -/
def distinctCounties (l : List HousingData) : Nat :=
  ((l.map fun r => r.COUNTY).dedup).length

/-- Number of distinct county strings among valued ADU records. -/
def distinctValuedAduCounties (l : List HousingData) : Nat :=
  (((l.filter fun r => decide (valuedAdu r)).map fun r => r.COUNTY).dedup).length

theorem mem_keys_jobValueByCountyFold (l : List HousingData) (c : String) :
    c ∈ (jobValueByCountyFold l).map Prod.fst ↔
      ∃ r ∈ l, valuedAdu r ∧ r.COUNTY = c := by
  rw [show jobValueByCountyFold l = gfold (fun row => row.Classification = .ADU ∧
      row.JOB_VALUE ≠ 0) (fun row => row.COUNTY)
      (fun _ => ({ sum := 0, count := 0 } : ValueAggregate))
      (fun row acc => { sum := acc.sum + row.JOB_VALUE, count := acc.count + 1 }) l from rfl,
    mem_keys_gfold]
  unfold valuedAdu
  rfl

theorem length_jurisdictionFold (l : List HousingData) :
    (jurisdictionFold l).length = distinctCounties l := by
  have h1 := nodup_keys_jurisdictionFold l
  have h2 : ((l.map fun r => r.COUNTY).dedup).Nodup := List.nodup_dedup _
  have hm : ∀ c, c ∈ (jurisdictionFold l).map Prod.fst ↔
      c ∈ (l.map fun r => r.COUNTY).dedup := by
    intro c
    rw [mem_keys_jurisdictionFold, List.mem_dedup, List.mem_map]
  have hperm := (List.perm_ext_iff_of_nodup h1 h2).mpr hm
  calc (jurisdictionFold l).length
      = ((jurisdictionFold l).map Prod.fst).length := (List.length_map _ _).symm
    _ = ((l.map fun r => r.COUNTY).dedup).length := hperm.length_eq
    _ = distinctCounties l := rfl

theorem length_jobValueByCountyFold (l : List HousingData) :
    (jobValueByCountyFold l).length = distinctValuedAduCounties l := by
  have h1 := nodup_keys_jobValueByCountyFold l
  have h2 : (((l.filter fun r => decide (valuedAdu r)).map fun r => r.COUNTY).dedup).Nodup :=
    List.nodup_dedup _
  have hm : ∀ c, c ∈ (jobValueByCountyFold l).map Prod.fst ↔
      c ∈ ((l.filter fun r => decide (valuedAdu r)).map fun r => r.COUNTY).dedup := by
    intro c
    rw [mem_keys_jobValueByCountyFold, List.mem_dedup, List.mem_map]
    constructor
    · rintro ⟨r, hr, hv, hc⟩
      exact ⟨r, List.mem_filter.mpr ⟨hr, by simpa using hv⟩, hc⟩
    · rintro ⟨r, hr, hc⟩
      obtain ⟨hrl, hv⟩ := List.mem_filter.mp hr
      exact ⟨r, hrl, by simpa using hv, hc⟩
  have hperm := (List.perm_ext_iff_of_nodup h1 h2).mpr hm
  calc (jobValueByCountyFold l).length
      = ((jobValueByCountyFold l).map Prod.fst).length := (List.length_map _ _).symm
    _ = _ := hperm.length_eq

theorem jsRound_zero : jsRound 0 = 0 := by
  rw [jsRound, zero_add]
  exact Int.floor_eq_zero_iff.mpr (by constructor <;> norm_num)

theorem yearCount_pos_of_mem {l : List HousingData} {r : HousingData} {y : Int}
    (hr : r ∈ l) (hy : r.YEAR = y) : 0 < yearCount l y := by
  induction l with
  | nil => cases hr
  | cons a rest ih =>
    rcases List.mem_cons.mp hr with h | h
    · subst h
      simp [yearCount, hy]
    · have := ih h
      simp only [yearCount]
      omega

theorem yearValueSum_eq_zero {l : List HousingData} {y : Int}
    (h : ∀ r ∈ l, r.YEAR = y → r.JOB_VALUE = 0) : yearValueSum l y = 0 := by
  induction l with
  | nil => rfl
  | cons a rest ih =>
    have ha := h a (List.mem_cons_self _ _)
    have ih' := ih fun r hr => h r (List.mem_cons_of_mem _ hr)
    simp only [yearValueSum, ih']
    by_cases hy : a.YEAR = y
    · simp [hy, ha hy]
    · simp [hy]

theorem yearClassValueSum_eq_zero {l : List HousingData} {y : Int} {c : Classification}
    (h : ∀ r ∈ l, r.YEAR = y → r.Classification = c → r.JOB_VALUE = 0) :
    yearClassValueSum l y c = 0 := by
  induction l with
  | nil => rfl
  | cons a rest ih =>
    have ih' := ih fun r hr => h r (List.mem_cons_of_mem _ hr)
    simp only [yearClassValueSum, ih']
    by_cases hy : a.YEAR = y ∧ a.Classification = c
    · simp [hy, h a (List.mem_cons_self _ _) hy.1 hy.2]
    · simp [hy]

theorem countyAduCount_le_countyCount (l : List HousingData) (c : String) :
    countyAduCount l c ≤ countyCount l c := by
  induction l with
  | nil => exact Nat.le_refl 0
  | cons a rest ih =>
    simp only [countyAduCount, countyCount]
    by_cases hc : a.COUNTY = c
    · by_cases hcl : a.Classification = Classification.ADU <;> simp [hc, hcl] <;> omega
    · simpa [hc] using ih

/-- Concrete input used by the witnesses below. -/
def sampleInput : List HousingData :=
  [{ YEAR := 2020, COUNTY := "Alameda", Classification := .ADU, JOB_VALUE := 200000 },
   { YEAR := 2020, COUNTY := "Alameda", Classification := .NON_ADU, JOB_VALUE := 400000 },
   { YEAR := 2021, COUNTY := "Alameda", Classification := .ADU, JOB_VALUE := 300000 },
   { YEAR := 2020, COUNTY := "Orange", Classification := .POTENTIAL_ADU_CONVERSION,
     JOB_VALUE := 0 },
   { YEAR := 2021, COUNTY := "Orange", Classification := .ADU, JOB_VALUE := 0 }]

/-- C9: on the empty input collection every one of the seven views is the
empty list, and the pipeline is a total function (no error is possible). -/
theorem processData_empty :
    processData [] =
      { unitsByYear := []
        aduPercentageByYear := []
        unitsByJurisdiction := []
        aduJobValuePercentageByYear := []
        avgJobValueByStructureTypeAndYear := []
        jobValueByCounty := []
        averageAduJobValueByYear := [] } := by
  rfl

/-- C2: for every input and every year present in it, `CountsByYear` has an
entry for that year, and every entry's three classification counts sum to the
number of input records of that entry's year. -/
theorem countsByYear_sum (l : List HousingData) :
    (∀ u ∈ processUnitsByYear l,
      u.ADU + u.NON_ADU + u.POTENTIAL_ADU_CONVERSION = yearCount l u.year) ∧
    ∀ y : Int, (∃ r ∈ l, r.YEAR = y) → ∃ u ∈ processUnitsByYear l, u.year = y := by
  constructor
  · intro u hu
    obtain ⟨hA, hN, hP, _⟩ := mem_processUnitsByYear hu
    rw [hA, hN, hP, yearCount_eq_sum_classes]
  · rintro y ⟨r, hr, hy⟩
    have hpos : 0 < yearCount l y := yearCount_pos_of_mem hr hy
    have halk := alookup_unitsByYearFold l y
    rw [if_pos hpos] at halk
    have hmem := mem_of_alookup halk
    have hbase : ({ year := y
                    ADU := yearClassCount l y .ADU
                    NON_ADU := yearClassCount l y .NON_ADU
                    POTENTIAL_ADU_CONVERSION :=
                      yearClassCount l y .POTENTIAL_ADU_CONVERSION } : UnitsByYearData) ∈
        (unitsByYearFold l).map Prod.snd :=
      List.mem_map.mpr ⟨_, hmem, rfl⟩
    exact ⟨_, (List.perm_insertionSort _ _).mem_iff.mpr hbase, rfl⟩

/-- Witness for C2 at a concrete input. -/
theorem countsByYear_sum_witness :
    (1 + 1 + 1 = yearCount sampleInput 2020) ∧
      ∃ u ∈ processUnitsByYear sampleInput, u.year = 2021 := by
  constructor
  · exact (countsByYear_sum sampleInput).1
      { year := 2020, ADU := 1, NON_ADU := 1, POTENTIAL_ADU_CONVERSION := 1 } (by decide)
  · exact (countsByYear_sum sampleInput).2 2021
      ⟨{ YEAR := 2021, COUNTY := "Alameda", Classification := .ADU, JOB_VALUE := 300000 },
        by decide, rfl⟩

/-- C3: every `PercentageByYear` entry's percentage is the round-half-up value
of `100 * ADU / total` when the year's total classification count is positive,
and `0` when it is zero, where the counts are taken over the raw input. -/
theorem percentageByYear_formula (l : List HousingData) :
    ∀ u ∈ processAduPercentageByYear l,
      (0 < yearClassCount l u.year .ADU + yearClassCount l u.year .NON_ADU +
          yearClassCount l u.year .POTENTIAL_ADU_CONVERSION →
        u.aduPercentage =
          jsRound (100 * (yearClassCount l u.year .ADU : ℚ) /
            ((yearClassCount l u.year .ADU + yearClassCount l u.year .NON_ADU +
                yearClassCount l u.year .POTENTIAL_ADU_CONVERSION : Nat) : ℚ))) ∧
      (yearClassCount l u.year .ADU + yearClassCount l u.year .NON_ADU +
          yearClassCount l u.year .POTENTIAL_ADU_CONVERSION = 0 →
        u.aduPercentage = 0) := by
  intro u hu
  obtain ⟨hA, hT, hPct, hpos⟩ := mem_processAduPercentageByYear hu
  have hsum := yearCount_eq_sum_classes l u.year
  constructor
  · intro _
    rw [hPct, if_pos hpos, roundDiv_eq _ (by exact_mod_cast hpos)]
    congr 1
    rw [hsum]
    push_cast
    ring
  · intro hT0
    rw [← hsum] at hT0
    omega

/-- Witness for C3 at a concrete input. -/
theorem percentageByYear_formula_witness :
    (33 : Int) =
      jsRound (100 * (yearClassCount sampleInput 2020 .ADU : ℚ) /
        ((yearClassCount sampleInput 2020 .ADU + yearClassCount sampleInput 2020 .NON_ADU +
            yearClassCount sampleInput 2020 .POTENTIAL_ADU_CONVERSION : Nat) : ℚ)) := by
  exact (percentageByYear_formula sampleInput
    { year := 2020, aduPercentage := 33, aduCount := 1, totalCount := 3 } (by decide)).1
    (by decide)

theorem avg_formula_helper (S : Int) (n : Nat) :
    (if 0 < n then roundDiv S (n : Int) else 0) =
      if 0 < n then jsRound ((S : ℚ) / (n : ℚ)) else 0 := by
  by_cases h : 0 < n
  · rw [if_pos h, if_pos h, roundDiv_eq _ (by exact_mod_cast h)]
    congr 1
  · rw [if_neg h, if_neg h]

theorem avg_zero_helper {S : Int} (n : Nat) (hS : S = 0) :
    (if 0 < n then roundDiv S (n : Int) else 0) = 0 := by
  subst hS
  by_cases h : 0 < n
  · rw [if_pos h, roundDiv_eq _ (by exact_mod_cast h)]
    rw [show ((0 : Int) : ℚ) = 0 from rfl, zero_div]
    exact jsRound_zero
  · rw [if_neg h]

/-- C6: every `AverageValueByTypeAndYear` entry reports, for each
classification, the rounded mean permit value of that year's records of that
classification in raw monetary units, and reports `0` (present, not omitted)
whenever the year has no valued records of that classification. -/
theorem averageValueByTypeAndYear_formula (l : List HousingData) :
    ∀ u ∈ processAverageJobValueByStructureTypeAndYear l,
      (u.ADU =
        if 0 < yearClassCount l u.year .ADU then
          jsRound ((yearClassValueSum l u.year .ADU : ℚ) /
            (yearClassCount l u.year .ADU : ℚ))
        else 0) ∧
      (u.NON_ADU =
        if 0 < yearClassCount l u.year .NON_ADU then
          jsRound ((yearClassValueSum l u.year .NON_ADU : ℚ) /
            (yearClassCount l u.year .NON_ADU : ℚ))
        else 0) ∧
      (u.POTENTIAL_ADU_CONVERSION =
        if 0 < yearClassCount l u.year .POTENTIAL_ADU_CONVERSION then
          jsRound ((yearClassValueSum l u.year .POTENTIAL_ADU_CONVERSION : ℚ) /
            (yearClassCount l u.year .POTENTIAL_ADU_CONVERSION : ℚ))
        else 0) ∧
      ((∀ r ∈ l, r.YEAR = u.year → r.Classification = .ADU → r.JOB_VALUE = 0) →
        u.ADU = 0) ∧
      ((∀ r ∈ l, r.YEAR = u.year → r.Classification = .NON_ADU → r.JOB_VALUE = 0) →
        u.NON_ADU = 0) ∧
      ((∀ r ∈ l, r.YEAR = u.year → r.Classification = .POTENTIAL_ADU_CONVERSION →
          r.JOB_VALUE = 0) →
        u.POTENTIAL_ADU_CONVERSION = 0) := by
  intro u hu
  obtain ⟨hA, hN, hP, _⟩ := mem_processAverageJobValueByStructureTypeAndYear hu
  refine ⟨?_, ?_, ?_, ?_, ?_, ?_⟩
  · rw [hA, avg_formula_helper]
  · rw [hN, avg_formula_helper]
  · rw [hP, avg_formula_helper]
  · intro h
    rw [hA]
    exact avg_zero_helper _ (yearClassValueSum_eq_zero h)
  · intro h
    rw [hN]
    exact avg_zero_helper _ (yearClassValueSum_eq_zero h)
  · intro h
    rw [hP]
    exact avg_zero_helper _ (yearClassValueSum_eq_zero h)

/-- Witness for C6 at a concrete input. -/
theorem averageValueByTypeAndYear_formula_witness :
    ((150000 : Int) =
      if 0 < yearClassCount sampleInput 2021 .ADU then
        jsRound ((yearClassValueSum sampleInput 2021 .ADU : ℚ) /
          (yearClassCount sampleInput 2021 .ADU : ℚ))
      else 0) ∧
    (0 : Int) = 0 := by
  have h := averageValueByTypeAndYear_formula sampleInput
    { year := 2021, ADU := 150000, NON_ADU := 0, POTENTIAL_ADU_CONVERSION := 0 } (by decide)
  exact ⟨h.1, h.2.2.2.2.1 (by decide)⟩

/-- C7: every `ValueShareByYear` entry carries the exact ADU and total value
sums of its year; the percentage is the round-half-up value of
`100 * aduValue / totalValue` when the total is positive, and is `0` (not an
error) when every record of the year has zero value. -/
theorem valueShareByYear_formula (l : List HousingData) :
    ∀ u ∈ processAduJobValuePercentageByYear l,
      u.aduValue = yearClassValueSum l u.year .ADU ∧
      u.totalValue = yearValueSum l u.year ∧
      ((0 : Int) < u.totalValue →
        u.aduJobValuePercentage =
          jsRound (100 * (u.aduValue : ℚ) / (u.totalValue : ℚ))) ∧
      ((∀ r ∈ l, r.YEAR = u.year → r.JOB_VALUE = 0) → u.aduJobValuePercentage = 0) := by
  intro u hu
  obtain ⟨hA, hT, hPct, _⟩ := mem_processAduJobValuePercentageByYear hu
  refine ⟨hA, hT, ?_, ?_⟩
  · intro hpos
    rw [hPct, if_pos hpos, roundDiv_eq _ hpos]
    congr 1
    push_cast
    ring
  · intro h
    have h0 : yearValueSum l u.year = 0 := yearValueSum_eq_zero h
    have hT0 : u.totalValue = 0 := by rw [hT, h0]
    rw [hPct, hT0]
    rfl

/-- Witness for C7 at a concrete input. -/
theorem valueShareByYear_formula_witness :
    (200000 : Int) = yearClassValueSum sampleInput 2020 .ADU ∧
      (33 : Int) = jsRound (100 * ((200000 : Int) : ℚ) / ((600000 : Int) : ℚ)) := by
  have h := valueShareByYear_formula sampleInput
    { year := 2020, aduJobValuePercentage := 33, aduValue := 200000, totalValue := 600000 }
    (by decide)
  exact ⟨h.1, h.2.2.1 (by decide)⟩

/-- C10: every listed jurisdiction entry has an ADU count bounded by its total
record count, and at least one record. -/
theorem topJurisdictionsByAduCount_invariant (l : List HousingData) :
    ∀ u ∈ processUnitsByJurisdiction l, u.ADU ≤ u.total ∧ 1 ≤ u.total := by
  intro u hu
  obtain ⟨hA, hT, hpos⟩ := mem_processUnitsByJurisdiction hu
  rw [hA, hT]
  exact ⟨countyAduCount_le_countyCount l u.county, hpos⟩

/-- Witness for C10 at a concrete input. -/
theorem topJurisdictionsByAduCount_invariant_witness :
    (2 : Nat) ≤ 3 ∧ (1 : Nat) ≤ 3 :=
  topJurisdictionsByAduCount_invariant sampleInput
    { county := "Alameda", total := 3, ADU := 2 } (by decide)

/-- C5: every `TopJurisdictionsByAvgAduValue` entry belongs to a county with
at least one valued ADU record and carries that county's valued-ADU count and
rounded mean value in thousands; the list is sorted non-increasing by mean
value, has at most 8 entries, and contains every qualifying county when at
most 8 counties qualify (counties without valued ADU records never appear). -/
theorem topJurisdictionsByAvgAduValue_spec (l : List HousingData) :
    (∀ u ∈ processJobValueByCounty l,
      0 < countyValuedAduCount l u.county ∧
      u.count = countyValuedAduCount l u.county ∧
      u.avgValue =
        jsRound ((countyValuedAduSum l u.county : ℚ) /
          (countyValuedAduCount l u.county : ℚ) / 1000)) ∧
    List.Pairwise (fun a b => b.avgValue ≤ a.avgValue) (processJobValueByCounty l) ∧
    (processJobValueByCounty l).length ≤ 8 ∧
    (distinctValuedAduCounties l ≤ 8 →
      ∀ r ∈ l, valuedAdu r → ∃ u ∈ processJobValueByCounty l, u.county = r.COUNTY) := by
  refine ⟨?_, ?_, ?_, ?_⟩
  · intro u hu
    obtain ⟨hc, hv, hpos⟩ := mem_processJobValueByCounty hu
    refine ⟨hpos, hc, ?_⟩
    have hposI : (0 : Int) < (countyValuedAduCount l u.county : Int) := by exact_mod_cast hpos
    have hb : (0 : Int) < (countyValuedAduCount l u.county : Int) * 1000 := by positivity
    rw [hv, roundDiv_eq _ hb]
    congr 1
    push_cast
    rw [div_div]
  · haveI : IsTotal JobValueByCountyData (fun a b => b.avgValue ≤ a.avgValue) :=
      ⟨fun a b => (le_total a.avgValue b.avgValue).symm⟩
    haveI : IsTrans JobValueByCountyData (fun a b => b.avgValue ≤ a.avgValue) :=
      ⟨fun _ _ _ h1 h2 => le_trans h2 h1⟩
    exact List.Pairwise.sublist (List.take_sublist 8 _)
      (List.sorted_insertionSort
        (fun a b : JobValueByCountyData => b.avgValue ≤ a.avgValue) _)
  · exact List.length_take_le 8 _
  · intro hle r hr hv
    have hkey : r.COUNTY ∈ (jobValueByCountyFold l).map Prod.fst :=
      (mem_keys_jobValueByCountyFold l r.COUNTY).mpr ⟨r, hr, hv, rfl⟩
    obtain ⟨p, hp, hpc⟩ := List.mem_map.mp hkey
    have hlen : (((jobValueByCountyFold l).map fun q =>
        ({ county := q.1
           avgValue := roundDiv q.2.sum ((q.2.count : Int) * 1000)
           count := q.2.count } : JobValueByCountyData)).insertionSort
        (fun a b => b.avgValue ≤ a.avgValue)).length ≤ 8 := by
      rw [(List.perm_insertionSort _ _).length_eq, List.length_map,
        length_jobValueByCountyFold]
      exact hle
    have hout : processJobValueByCounty l =
        ((jobValueByCountyFold l).map fun q =>
          ({ county := q.1
             avgValue := roundDiv q.2.sum ((q.2.count : Int) * 1000)
             count := q.2.count } : JobValueByCountyData)).insertionSort
          (fun a b => b.avgValue ≤ a.avgValue) := by
      rw [show processJobValueByCounty l =
          (((jobValueByCountyFold l).map fun q =>
            ({ county := q.1
               avgValue := roundDiv q.2.sum ((q.2.count : Int) * 1000)
               count := q.2.count } : JobValueByCountyData)).insertionSort
            (fun a b => b.avgValue ≤ a.avgValue)).take 8 from rfl,
        List.take_of_length_le hlen]
    rw [hout]
    refine ⟨_, (List.perm_insertionSort _ _).mem_iff.mpr (List.mem_map.mpr ⟨p, hp, rfl⟩), ?_⟩
    exact hpc

/-- Witness for C5 at a concrete input. -/
theorem topJurisdictionsByAvgAduValue_spec_witness :
    ((2 : Nat) = countyValuedAduCount sampleInput "Alameda" ∧
      (250 : Int) =
        jsRound ((countyValuedAduSum sampleInput "Alameda" : ℚ) /
          (countyValuedAduCount sampleInput "Alameda" : ℚ) / 1000)) ∧
    ∃ u ∈ processJobValueByCounty sampleInput, u.county = "Alameda" := by
  have h := topJurisdictionsByAvgAduValue_spec sampleInput
  have h1 := h.1 { county := "Alameda", avgValue := 250, count := 2 } (by decide)
  refine ⟨⟨h1.2.1, h1.2.2⟩, ?_⟩
  exact h.2.2.2 (by decide)
    { YEAR := 2020, COUNTY := "Alameda", Classification := .ADU, JOB_VALUE := 200000 }
    (by decide) (by decide)

/-- C4: `TopJurisdictionsByAduCount` has at most 8 entries, is sorted
non-increasing by ADU count, ties are listed in order of the county's first
appearance in the input, and when fewer than 8 distinct counties occur every
county appears. -/
theorem topJurisdictionsByAduCount_spec (l : List HousingData) :
    (processUnitsByJurisdiction l).length ≤ 8 ∧
    List.Pairwise (fun a b => b.ADU ≤ a.ADU) (processUnitsByJurisdiction l) ∧
    (∀ v : Nat,
      ((processUnitsByJurisdiction l).filter fun u => decide (u.ADU = v)).Pairwise
        (fun a b => firstIdx l a.county < firstIdx l b.county)) ∧
    (distinctCounties l < 8 →
      ∀ r ∈ l, ∃ u ∈ processUnitsByJurisdiction l, u.county = r.COUNTY) := by
  refine ⟨?_, ?_, ?_, ?_⟩
  · exact List.length_take_le 8 _
  · haveI : IsTotal UnitsByJurisdictionData (fun a b => b.ADU ≤ a.ADU) :=
      ⟨fun a b => (le_total a.ADU b.ADU).symm⟩
    haveI : IsTrans UnitsByJurisdictionData (fun a b => b.ADU ≤ a.ADU) :=
      ⟨fun _ _ _ h1 h2 => le_trans h2 h1⟩
    exact List.Pairwise.sublist (List.take_sublist 8 _)
      (List.sorted_insertionSort (fun a b : UnitsByJurisdictionData => b.ADU ≤ a.ADU) _)
  · intro v
    have hbase : List.Pairwise
        (fun a b : UnitsByJurisdictionData =>
          firstIdx l a.county < firstIdx l b.county)
        ((jurisdictionFold l).map fun p =>
          ({ county := p.1, ADU := p.2.ADU, total := p.2.total } : UnitsByJurisdictionData)) :=
      List.pairwise_map.mpr (jurisdictionFold_pairwise_firstIdx l)
    have htie : ∀ a b : UnitsByJurisdictionData,
        decide (a.ADU = v) = true → decide (b.ADU = v) = true → b.ADU ≤ a.ADU := by
      intro a b ha hb
      simp only [decide_eq_true_eq] at ha hb
      omega
    have hfs := filter_insertionSort (fun a b : UnitsByJurisdictionData => b.ADU ≤ a.ADU)
      (fun u => decide (u.ADU = v)) htie
      ((jurisdictionFold l).map fun p =>
        ({ county := p.1, ADU := p.2.ADU, total := p.2.total } : UnitsByJurisdictionData))
    have h1 : List.Sublist
        ((processUnitsByJurisdiction l).filter (fun u => decide (u.ADU = v)))
        ((((jurisdictionFold l).map fun p =>
          ({ county := p.1, ADU := p.2.ADU, total := p.2.total } :
            UnitsByJurisdictionData)).insertionSort
          (fun a b => b.ADU ≤ a.ADU)).filter (fun u => decide (u.ADU = v))) :=
      List.Sublist.filter _ (List.take_sublist 8 _)
    rw [hfs] at h1
    exact List.Pairwise.sublist h1
      (List.Pairwise.sublist (List.filter_sublist _) hbase)
  · intro hlt r hr
    have hkey : r.COUNTY ∈ (jurisdictionFold l).map Prod.fst :=
      (mem_keys_jurisdictionFold l r.COUNTY).mpr ⟨r, hr, rfl⟩
    obtain ⟨p, hp, hpc⟩ := List.mem_map.mp hkey
    have hlen : (((jurisdictionFold l).map fun p =>
        ({ county := p.1, ADU := p.2.ADU, total := p.2.total } :
          UnitsByJurisdictionData)).insertionSort
        (fun a b => b.ADU ≤ a.ADU)).length ≤ 8 := by
      rw [(List.perm_insertionSort _ _).length_eq, List.length_map,
        length_jurisdictionFold]
      omega
    have hout : processUnitsByJurisdiction l =
        ((jurisdictionFold l).map fun p =>
          ({ county := p.1, ADU := p.2.ADU, total := p.2.total } :
            UnitsByJurisdictionData)).insertionSort (fun a b => b.ADU ≤ a.ADU) := by
      rw [show processUnitsByJurisdiction l =
          (((jurisdictionFold l).map fun p =>
            ({ county := p.1, ADU := p.2.ADU, total := p.2.total } :
              UnitsByJurisdictionData)).insertionSort
            (fun a b => b.ADU ≤ a.ADU)).take 8 from rfl,
        List.take_of_length_le hlen]
    rw [hout]
    exact ⟨_, (List.perm_insertionSort _ _).mem_iff.mpr (List.mem_map.mpr ⟨p, hp, rfl⟩), hpc⟩

/-- Witness for C4 at a concrete input. -/
theorem topJurisdictionsByAduCount_spec_witness :
    ((processUnitsByJurisdiction sampleInput).filter fun u => decide (u.ADU = 2)).Pairwise
      (fun a b => firstIdx sampleInput a.county < firstIdx sampleInput b.county) ∧
    ∃ u ∈ processUnitsByJurisdiction sampleInput, u.county = "Orange" := by
  have h := topJurisdictionsByAduCount_spec sampleInput
  exact ⟨h.2.2.1 2, h.2.2.2 (by decide)
    { YEAR := 2021, COUNTY := "Orange", Classification := .ADU, JOB_VALUE := 0 } (by decide)⟩

/-- C8: each year-grouped view (`CountsByYear`, `PercentageByYear`,
`ValueShareByYear`, `AverageValueByTypeAndYear`, `AverageAduValueByYear`) is
sorted strictly ascending by numeric year. -/
theorem yearViews_sorted (l : List HousingData) :
    List.Pairwise (fun a b => a.year < b.year) (processUnitsByYear l) ∧
    List.Pairwise (fun a b => a.year < b.year) (processAduPercentageByYear l) ∧
    List.Pairwise (fun a b => a.year < b.year) (processAduJobValuePercentageByYear l) ∧
    List.Pairwise (fun a b => a.year < b.year)
      (processAverageJobValueByStructureTypeAndYear l) ∧
    List.Pairwise (fun a b => a.year < b.year) (processAverageAduJobValueByYear l) := by
  have hunits : List.Pairwise (fun a b => a.year < b.year) (processUnitsByYear l) := by
    have hmapeq : ((unitsByYearFold l).map Prod.snd).map
        (fun u : UnitsByYearData => u.year) = (unitsByYearFold l).map Prod.fst := by
      rw [List.map_map]
      refine List.map_congr_left ?_
      intro p hp
      show p.2.year = p.1
      rw [(mem_unitsByYearFold hp).1]
    have hnd : (((unitsByYearFold l).map Prod.snd).map
        (fun u : UnitsByYearData => u.year)).Nodup := by
      rw [hmapeq]
      exact nodup_keys_unitsByYearFold l
    exact pairwise_keyLt_insertionSort (fun u : UnitsByYearData => u.year) _ hnd
  refine ⟨hunits, List.pairwise_map.mpr hunits, ?_, ?_, ?_⟩
  · have hnd : (((yearValueShareFold l).map fun p =>
        ({ year := p.1
           aduJobValuePercentage :=
             if (0 : Int) < p.2.totalValue then roundDiv (100 * p.2.aduValue) p.2.totalValue
             else 0
           aduValue := p.2.aduValue
           totalValue := p.2.totalValue } : AduJobValuePercentageByYearData)).map
        (fun u : AduJobValuePercentageByYearData => u.year)).Nodup := by
      rw [List.map_map]
      exact nodup_keys_yearValueShareFold l
    exact pairwise_keyLt_insertionSort
      (fun u : AduJobValuePercentageByYearData => u.year) _ hnd
  · have hnd : (((structureTypeFold l).map fun p =>
        ({ year := p.1
           ADU := if 0 < p.2.ADU.count then roundDiv p.2.ADU.sum (p.2.ADU.count : Int) else 0
           NON_ADU :=
             if 0 < p.2.NON_ADU.count then roundDiv p.2.NON_ADU.sum (p.2.NON_ADU.count : Int)
             else 0
           POTENTIAL_ADU_CONVERSION :=
             if 0 < p.2.POTENTIAL_ADU_CONVERSION.count then
               roundDiv p.2.POTENTIAL_ADU_CONVERSION.sum
                 (p.2.POTENTIAL_ADU_CONVERSION.count : Int)
             else 0 } : AvgJobValueByStructureTypeAndYearData)).map
        (fun u : AvgJobValueByStructureTypeAndYearData => u.year)).Nodup := by
      rw [List.map_map]
      exact nodup_keys_structureTypeFold l
    exact pairwise_keyLt_insertionSort
      (fun u : AvgJobValueByStructureTypeAndYearData => u.year) _ hnd
  · have hnd : (((aduValueByYearFold l).map fun p =>
        ({ year := p.1
           avgAduValue := roundDiv p.2.sum ((p.2.count : Int) * 1000)
           count := p.2.count } : AverageAduJobValueByYearData)).map
        (fun u : AverageAduJobValueByYearData => u.year)).Nodup := by
      rw [List.map_map]
      exact nodup_keys_aduValueByYearFold l
    exact pairwise_keyLt_insertionSort
      (fun u : AverageAduJobValueByYearData => u.year) _ hnd

theorem gfold_append_cons_of_not_cond {R κ α : Type} [DecidableEq κ] (cond : R → Prop)
    [DecidablePred cond] (key : R → κ) (d : κ → α) (f : R → α → α) {r : R}
    (hr : ¬ cond r) (l1 l2 : List R) :
    gfold cond key d f (l1 ++ r :: l2) = gfold cond key d f (l1 ++ l2) := by
  simp only [gfold, List.foldl_append, List.foldl_cons, if_neg hr]

theorem gfold_concat {R κ α : Type} [DecidableEq κ] (cond : R → Prop)
    [DecidablePred cond] (key : R → κ) (d : κ → α) (f : R → α → α) (l : List R) (r : R) :
    gfold cond key d f (l ++ [r]) =
      if cond r then upsert (gfold cond key d f l) (key r) (d (key r)) (f r)
      else gfold cond key d f l := by
  simp only [gfold, List.foldl_append, List.foldl_cons, List.foldl_nil]

/-- Incrementing a classification's count while leaving its sum unchanged:
the net effect of view 5's accumulator on a zero-valued record. -/
def tickClassificationCount (c : Classification) (a : StructureTypeAgg) :
    StructureTypeAgg :=
  match c with
  | .ADU => { a with ADU := { a.ADU with count := a.ADU.count + 1 } }
  | .NON_ADU => { a with NON_ADU := { a.NON_ADU with count := a.NON_ADU.count + 1 } }
  | .POTENTIAL_ADU_CONVERSION =>
    { a with POTENTIAL_ADU_CONVERSION :=
        { a.POTENTIAL_ADU_CONVERSION with
          count := a.POTENTIAL_ADU_CONVERSION.count + 1 } }

/-- C1 counterexample: a zero-valued ADU record is NOT excluded from
`AverageValueByTypeAndYear`: with records of values `0` and `100` in the same
year and classification the reported ADU mean is `50`, while without the
zero-valued record it is `100` — the zero-valued record is counted in the
mean's denominator. -/
theorem valueExclusion_counterexample :
    processAverageJobValueByStructureTypeAndYear
        [{ YEAR := 2020, COUNTY := "Alameda", Classification := .ADU, JOB_VALUE := 0 },
         { YEAR := 2020, COUNTY := "Alameda", Classification := .ADU, JOB_VALUE := 100 }] =
      [{ year := 2020, ADU := 50, NON_ADU := 0, POTENTIAL_ADU_CONVERSION := 0 }] ∧
    processAverageJobValueByStructureTypeAndYear
        [{ YEAR := 2020, COUNTY := "Alameda", Classification := .ADU, JOB_VALUE := 100 }] =
      [{ year := 2020, ADU := 100, NON_ADU := 0, POTENTIAL_ADU_CONVERSION := 0 }] :=
  ⟨by decide, by decide⟩

/-- C1 (amended): a record with zero (falsy) permit value is silently excluded
from `TopJurisdictionsByAvgAduValue` and `AverageAduValueByYear` (removing it
changes nothing); in `ValueShareByYear` it adds zero to both value sums (its
only effect is possibly creating its year's zero-valued entry); but in
`AverageValueByTypeAndYear` it is counted toward its classification's mean
denominator (count incremented, sum unchanged). -/
theorem valueExclusion_amended (l1 l2 : List HousingData) (r : HousingData)
    (hr : r.JOB_VALUE = 0) :
    processJobValueByCounty (l1 ++ r :: l2) = processJobValueByCounty (l1 ++ l2) ∧
    processAverageAduJobValueByYear (l1 ++ r :: l2) =
      processAverageAduJobValueByYear (l1 ++ l2) ∧
    yearValueShareFold (l1 ++ [r]) =
      upsert (yearValueShareFold l1) r.YEAR { aduValue := 0, totalValue := 0 }
        (fun s => s) ∧
    structureTypeFold (l1 ++ [r]) =
      upsert (structureTypeFold l1) r.YEAR
        { ADU := { sum := 0, count := 0 }
          NON_ADU := { sum := 0, count := 0 }
          POTENTIAL_ADU_CONVERSION := { sum := 0, count := 0 } }
        (tickClassificationCount r.Classification) := by
  have hnc : ¬(r.Classification = Classification.ADU ∧ r.JOB_VALUE ≠ 0) := fun h => h.2 hr
  refine ⟨?_, ?_, ?_, ?_⟩
  · have hf : jobValueByCountyFold (l1 ++ r :: l2) = jobValueByCountyFold (l1 ++ l2) :=
      gfold_append_cons_of_not_cond
        (fun row : HousingData => row.Classification = .ADU ∧ row.JOB_VALUE ≠ 0)
        (fun row => row.COUNTY) (fun _ => ({ sum := 0, count := 0 } : ValueAggregate))
        (fun row acc => { sum := acc.sum + row.JOB_VALUE, count := acc.count + 1 })
        hnc l1 l2
    simp only [processJobValueByCounty, hf]
  · have hf : aduValueByYearFold (l1 ++ r :: l2) = aduValueByYearFold (l1 ++ l2) :=
      gfold_append_cons_of_not_cond
        (fun row : HousingData => row.Classification = .ADU ∧ row.JOB_VALUE ≠ 0)
        (fun row => row.YEAR) (fun _ => ({ sum := 0, count := 0 } : ValueAggregate))
        (fun row acc => { sum := acc.sum + row.JOB_VALUE, count := acc.count + 1 })
        hnc l1 l2
    simp only [processAverageAduJobValueByYear, hf]
  · have h2 : yearValueShareFold (l1 ++ [r]) =
        upsert (yearValueShareFold l1) r.YEAR { aduValue := 0, totalValue := 0 }
          (fun acc =>
            { totalValue := acc.totalValue + r.JOB_VALUE
              aduValue :=
                if r.Classification = .ADU then acc.aduValue + r.JOB_VALUE
                else acc.aduValue }) := by
      have h := gfold_concat (fun _ : HousingData => True) (fun row => row.YEAR)
        (fun _ => ({ aduValue := 0, totalValue := 0 } : YearValueShare))
        (fun row acc =>
          { totalValue := acc.totalValue + row.JOB_VALUE
            aduValue :=
              if row.Classification = .ADU then acc.aduValue + row.JOB_VALUE
              else acc.aduValue }) l1 r
      simpa using h
    rw [h2, hr]
    congr 1
    funext acc
    simp
  · have h2 : structureTypeFold (l1 ++ [r]) =
        upsert (structureTypeFold l1) r.YEAR
          { ADU := { sum := 0, count := 0 }
            NON_ADU := { sum := 0, count := 0 }
            POTENTIAL_ADU_CONVERSION := { sum := 0, count := 0 } }
          (addToClassification r.Classification r.JOB_VALUE) := by
      have h := gfold_concat (fun _ : HousingData => True) (fun row => row.YEAR)
        (fun _ =>
          ({ ADU := { sum := 0, count := 0 }
             NON_ADU := { sum := 0, count := 0 }
             POTENTIAL_ADU_CONVERSION := { sum := 0, count := 0 } } : StructureTypeAgg))
        (fun row => addToClassification row.Classification row.JOB_VALUE) l1 r
      simpa using h
    rw [h2, hr]
    congr 1
    funext acc
    cases hc : r.Classification <;> simp [addToClassification, tickClassificationCount, hc]

/-- Witness for the amended C1 at a concrete input. -/
theorem valueExclusion_amended_witness :
    processJobValueByCounty
        [{ YEAR := 2020, COUNTY := "Alameda", Classification := .ADU, JOB_VALUE := 200000 },
         { YEAR := 2021, COUNTY := "Orange", Classification := .ADU, JOB_VALUE := 0 },
         { YEAR := 2021, COUNTY := "Alameda", Classification := .ADU, JOB_VALUE := 300000 }] =
      processJobValueByCounty
        [{ YEAR := 2020, COUNTY := "Alameda", Classification := .ADU, JOB_VALUE := 200000 },
         { YEAR := 2021, COUNTY := "Alameda", Classification := .ADU, JOB_VALUE := 300000 }] ∧
    processAverageAduJobValueByYear
        [{ YEAR := 2020, COUNTY := "Alameda", Classification := .ADU, JOB_VALUE := 200000 },
         { YEAR := 2021, COUNTY := "Orange", Classification := .ADU, JOB_VALUE := 0 },
         { YEAR := 2021, COUNTY := "Alameda", Classification := .ADU, JOB_VALUE := 300000 }] =
      processAverageAduJobValueByYear
        [{ YEAR := 2020, COUNTY := "Alameda", Classification := .ADU, JOB_VALUE := 200000 },
         { YEAR := 2021, COUNTY := "Alameda", Classification := .ADU, JOB_VALUE := 300000 }] := by
  have h := valueExclusion_amended
    [{ YEAR := 2020, COUNTY := "Alameda", Classification := .ADU, JOB_VALUE := 200000 }]
    [{ YEAR := 2021, COUNTY := "Alameda", Classification := .ADU, JOB_VALUE := 300000 }]
    { YEAR := 2021, COUNTY := "Orange", Classification := .ADU, JOB_VALUE := 0 } rfl
  exact ⟨h.1, h.2.1⟩
